import Mathlib

/-!
# Faucet dispatch engine

A shallow embedding of the Go sources `internal/chain/transaction.go` and
`internal/server/server.go`, followed by theorems about the embedded code.

Conventions of the embedding.

* A Go result pair `(v, err)` is a Lean pair `v × Option Err`; `none` is Go's `nil` error.
* The ledger RPC client, the signer and the go-ethereum helpers are external
  collaborators.  The stateful ones (`bind.ContractTransactor`) are functions on an
  arbitrary ledger state `σ`; the pure ones are fields of `Ext`.
* `World.ops`, `Server.trace` and `Server.logs` are observation records: every call
  to an external collaborator, to the lock or to the builder appends one entry, which
  lets the theorems count calls and state their order.  No code path reads them.
* `big.Int` values are `Int`; `uint64` values are `Nat`; `common.Hash` and
  `common.Address` are the numbers their bytes denote, so the zero value is `0`.
* A `context.Context` carries no data the code reads; a deadline that expires shows up
  as an error returned by the external call in progress, which the client model allows
  at every call.
* `handleClaim` and `consumeQueue` are the behaviour of one call running alone from a
  given state of lock, queue and ledger.  Concurrent runs are the interleavings of
  `step`, which cuts the same code at every access to shared state; `handler_alone` and
  `drain_alone` show that the steps of one unit, run without interruption, compose to
  `handleClaim` and `consumeQueue`.
-/

namespace Faucet

/-! ## `internal/chain/transaction.go` -/

namespace chain

/-- Go `error`, identified with its `Error()` text. -/
abbrev Err := String

/-- The type `common.Hash`; `common.Hash{}` is `0`. -/
abbrev Hash := Nat

/-- The type `common.Address`. -/
abbrev Address := Nat

/-- The payload of `types.LegacyTx` as the builder fills it in (`Data` is `[]` for Go's nil). -/
structure LegacyTx where
  Nonce : Nat
  To : Address
  Value : Int
  Data : List Nat
  Gas : Nat
  GasPrice : Int
deriving DecidableEq, Repr

/-- A signed `types.Transaction`: the payload with the signature attached. -/
structure SignedTx where
  tx : LegacyTx
  sig : Nat
deriving DecidableEq, Repr

/-- One call to an external collaborator made by the builder. -/
inductive Op where
  | PendingNonceAt (account : Address)
  | SuggestGasPrice
  | SignTx (tx : LegacyTx)
  | SendTransaction (tx : SignedTx)
deriving DecidableEq, Repr

/-- The ledger client `bind.ContractTransactor`, over an arbitrary ledger state `σ`. -/
structure Client (σ : Type) where
  PendingNonceAt : Address → σ → (Nat × Option Err) × σ
  SuggestGasPrice : σ → (Int × Option Err) × σ
  SendTransaction : SignedTx → σ → Option Err × σ

/-- The ledger state together with the record of the calls made so far. -/
structure World (σ : Type) where
  st : σ
  ops : List Op

/-- The struct `TxBuild`.  `SignTx` is `types.SignTx` with the builder's `signer` and
`privateKey` supplied, `HexToAddress` is `common.HexToAddress`, `TxHash` is
`(*types.Transaction).Hash`. -/
structure TxBuild (σ : Type) where
  client : Client σ
  SignTx : LegacyTx → SignedTx × Option Err
  HexToAddress : String → Address
  TxHash : SignedTx → Hash
  fromAddress : Address

variable {σ : Type}

/-- Method `Sender`. -/
def TxBuild.Sender (b : TxBuild σ) : Address :=
  b.fromAddress

/-- Call `b.client.PendingNonceAt(ctx, account)`. -/
def TxBuild.callPendingNonceAt (b : TxBuild σ) (account : Address) (w : World σ) :
    (Nat × Option Err) × World σ :=
  let r := b.client.PendingNonceAt account w.st
  (r.1, { st := r.2, ops := w.ops ++ [Op.PendingNonceAt account] })

/-- Call `b.client.SuggestGasPrice(ctx)`. -/
def TxBuild.callSuggestGasPrice (b : TxBuild σ) (w : World σ) :
    (Int × Option Err) × World σ :=
  let r := b.client.SuggestGasPrice w.st
  (r.1, { st := r.2, ops := w.ops ++ [Op.SuggestGasPrice] })

/-- Call `types.SignTx(unsignedTx, b.signer, b.privateKey)`. -/
def TxBuild.callSignTx (b : TxBuild σ) (unsignedTx : LegacyTx) (w : World σ) :
    (SignedTx × Option Err) × World σ :=
  (b.SignTx unsignedTx, { w with ops := w.ops ++ [Op.SignTx unsignedTx] })

/-- Call `b.client.SendTransaction(ctx, signedTx)`. -/
def TxBuild.callSendTransaction (b : TxBuild σ) (signedTx : SignedTx) (w : World σ) :
    Option Err × World σ :=
  let r := b.client.SendTransaction signedTx w.st
  (r.1, { st := r.2, ops := w.ops ++ [Op.SendTransaction signedTx] })

/-- Method `Transfer` of `TxBuild`. -/
def TxBuild.Transfer (b : TxBuild σ) (to_ : String) (value gasprice : Int) (w : World σ) :
    (Hash × Option Err) × World σ :=
  match b.callPendingNonceAt b.Sender w with
  | ((_, some err), w) => ((0, some err), w)
  | ((nonce, none), w) =>
    let gasLimit : Nat := 50000
    match (if gasprice = 0 then b.callSuggestGasPrice w else ((gasprice, none), w)) with
    | ((_, some err), w) => ((0, some err), w)
    | ((gasPrice, none), w) =>
      let toAddress := b.HexToAddress to_
      let unsignedTx : LegacyTx :=
        { Nonce := nonce, To := toAddress, Value := value, Data := [],
          Gas := gasLimit, GasPrice := gasPrice }
      match b.callSignTx unsignedTx w with
      | ((_, some err), w) => ((0, some err), w)
      | ((signedTx, none), w) =>
        match b.callSendTransaction signedTx w with
        | (err, w) => ((b.TxHash signedTx, err), w)

/-- Method `MultiTransfer` of `TxBuild`. -/
def TxBuild.MultiTransfer (b : TxBuild σ) (to_ : String) (data : List Nat) (gasprice : Int)
    (w : World σ) : (Hash × Option Err) × World σ :=
  match b.callPendingNonceAt b.Sender w with
  | ((_, some err), w) => ((0, some err), w)
  | ((nonce, none), w) =>
    let toAddress := b.HexToAddress to_
    let gasLimit : Nat := 500000
    match (if gasprice = 0 then b.callSuggestGasPrice w else ((gasprice, none), w)) with
    | ((_, some err), w) => ((0, some err), w)
    | ((gasPrice, none), w) =>
      let unsignedTx : LegacyTx :=
        { Nonce := nonce, To := toAddress, Value := 0, Data := data,
          Gas := gasLimit, GasPrice := gasPrice }
      match b.callSignTx unsignedTx w with
      | ((_, some err), w) => ((0, some err), w)
      | ((signedTx, none), w) =>
        match b.callSendTransaction signedTx w with
        | (err, w) => ((b.TxHash signedTx, err), w)

end chain

/-! ## `internal/server/config.go` and `internal/server/server.go` -/

namespace server

open chain

/-- The struct `Config`.  Go's `int` fields are `Int`, so the conversions
`int64(cfg.x)` and `big.NewInt` are the identity. -/
structure Config where
  httpPort : Int
  proxyCount : Int
  queueCap : Int
  contractAddress : String
  ethAmount : Int
  usdtAmount : Int
  usdcAmount : Int
  interval : Int
  gasPrice : Int
  networkName : String
deriving DecidableEq, Repr

/-- Constructor `NewConfig`. -/
def NewConfig (httpPort proxyCount queueCap : Int) (contractAddress : String)
    (ethAmount usdtAmount usdcAmount interval gasPrice : Int) (networkName : String) : Config :=
  { httpPort := httpPort, proxyCount := proxyCount, queueCap := queueCap,
    contractAddress := contractAddress, ethAmount := ethAmount, usdtAmount := usdtAmount,
    usdcAmount := usdcAmount, interval := interval, gasPrice := gasPrice,
    networkName := networkName }

/-- The interface `chain.TxBuilder`, over an arbitrary state `W` of the outside world. -/
structure TxBuilder (W : Type) where
  Sender : Address
  Transfer : String → Int → Int → W → (Hash × Option Err) × W
  MultiTransfer : String → List Nat → Int → W → (Hash × Option Err) × W

/-- The builder `TxBuild` seen through the interface `chain.TxBuilder`. -/
def ofTxBuild {σ : Type} (b : TxBuild σ) : TxBuilder (World σ) :=
  { Sender := b.Sender, Transfer := b.Transfer, MultiTransfer := b.MultiTransfer }

/-- The pure helpers `handleClaim` and `consumeQueue` call that are not part of the
sources at hand: `chain.EtherToWei`, go-ethereum's `abi.JSON`, `abi.ABI.Pack` (at the
argument list used here), `common.HexToAddress`, and `common.Hash.String`. -/
structure Ext where
  EtherToWei : Int → Int
  AbiT : Type
  JSON : String → AbiT × Option Err
  Pack : AbiT → String → Address → Int → Int → Int → List Nat × Option Err
  HexToAddress : String → Address
  HashString : Hash → String

/-- The lock `trylock.Mutex`: held or free. -/
structure Mutex where
  locked : Bool
deriving DecidableEq, Repr

/-- Non-blocking acquire: succeeds exactly when the lock is free. -/
def Mutex.TryLock (m : Mutex) : Bool × Mutex :=
  if m.locked then (false, m) else (true, { locked := true })

/-- Blocking acquire.  `none` stands for a caller that waits on a held lock; nothing
else runs inside one sequential call, so it would never be woken. -/
def Mutex.Lock (m : Mutex) : Option Mutex :=
  if m.locked then none else some { locked := true }

/-- Release.  Both call sites release a lock they hold. -/
def Mutex.Unlock (_m : Mutex) : Mutex :=
  { locked := false }

/-- A buffered `chan string`: the buffer, oldest entry first, and the capacity fixed by `make`. -/
structure Chan where
  buf : List String
  cap : Nat
deriving DecidableEq, Repr

/-- Go's `len(c)`. -/
def Chan.len (c : Chan) : Nat :=
  c.buf.length

/-- The statement `select { case c <- v: ...; default: ... }`: the send is taken exactly
when the buffer has room, otherwise the default branch runs (`none`). -/
def Chan.trySend (c : Chan) (v : String) : Option Chan :=
  if c.buf.length < c.cap then some { c with buf := c.buf ++ [v] } else none

/-- The receive `<-c`: the oldest entry; `none` stands for a receive that would wait. -/
def Chan.recv (c : Chan) : Option (String × Chan) :=
  match c.buf with
  | [] => none
  | v :: rest => some (v, { c with buf := rest })

/-- One call on the lock or on the builder, as made by the server. -/
inductive Event where
  | TryLock (ok : Bool)
  | Lock
  | Unlock
  | Transfer (to_ : String) (value gasprice : Int)
  | MultiTransfer (to_ : String) (data : List Nat) (gasprice : Int)
deriving DecidableEq, Repr

/-- One logrus entry: level, message and the attached fields. -/
structure LogEntry where
  level : String
  msg : String
  fields : List (String × String)
deriving DecidableEq, Repr

/-- The struct `Server` (`builder` is the embedded `chain.TxBuilder`), together with
the state `world` its builder acts on and the records `trace` and `logs`. -/
structure Server (W : Type) where
  builder : TxBuilder W
  mutex : Mutex
  cfg : Config
  queue : Chan
  world : W
  trace : List Event
  logs : List LogEntry

variable {W : Type}

/-- Constructor `NewServer`.  `make(chan string, n)` panics (`none`) for a negative `n`
and for an `n` above the largest buffer the runtime can allocate; that limit depends on
the platform and is the parameter `maxChanCap`. -/
def NewServer (maxChanCap : Nat) (builder : TxBuilder W) (cfg : Config) (world : W) :
    Option (Server W) :=
  if cfg.queueCap < 0 ∨ (maxChanCap : Int) < cfg.queueCap then none
  else some
    { builder := builder, mutex := { locked := false }, cfg := cfg,
      queue := { buf := [], cap := cfg.queueCap.toNat },
      world := world, trace := [], logs := [] }

/-- Call `s.mutex.TryLock()`. -/
def Server.TryLock (s : Server W) : Bool × Server W :=
  let r := s.mutex.TryLock
  (r.1, { s with mutex := r.2, trace := s.trace ++ [Event.TryLock r.1] })

/-- Call `s.mutex.Lock()`. -/
def Server.Lock (s : Server W) : Option (Server W) :=
  match s.mutex.Lock with
  | none => none
  | some m => some { s with mutex := m, trace := s.trace ++ [Event.Lock] }

/-- Call `s.mutex.Unlock()`. -/
def Server.Unlock (s : Server W) : Server W :=
  { s with mutex := s.mutex.Unlock, trace := s.trace ++ [Event.Unlock] }

/-- Call `s.Transfer(ctx, to, value, gasprice)` on the embedded builder. -/
def Server.Transfer (s : Server W) (to_ : String) (value gasprice : Int) :
    (Hash × Option Err) × Server W :=
  let r := s.builder.Transfer to_ value gasprice s.world
  (r.1, { s with world := r.2, trace := s.trace ++ [Event.Transfer to_ value gasprice] })

/-- Call `s.MultiTransfer(ctx, to, data, gasprice)` on the embedded builder. -/
def Server.MultiTransfer (s : Server W) (to_ : String) (data : List Nat) (gasprice : Int) :
    (Hash × Option Err) × Server W :=
  let r := s.builder.MultiTransfer to_ data gasprice s.world
  (r.1, { s with world := r.2, trace := s.trace ++ [Event.MultiTransfer to_ data gasprice] })

/-- Append one log entry. -/
def Server.log (s : Server W) (level msg : String) (fields : List (String × String)) :
    Server W :=
  { s with logs := s.logs ++ [{ level := level, msg := msg, fields := fields }] }

/-- Log `Failed to ...` with the error attached when `err` is not nil. -/
def Server.logIfErr (s : Server W) (err : Option Err) (msg : String) : Server W :=
  match err with
  | some e => s.log "error" msg [("error", e)]
  | none => s

/-- The body of the loop of `consumeQueue`, entered with `len(s.queue) != 0`: receive
the oldest address, call `Transfer` for it, log the outcome. -/
def consumeBody (ext : Ext) (s : Server W) : Server W :=
  match s.queue.recv with
  | none => s
  | some (address, q) =>
    let s1 : Server W := { s with queue := q }
    let r := s1.Transfer address (ext.EtherToWei s1.cfg.ethAmount) s1.cfg.gasPrice
    match r.1.2 with
    | some err => r.2.log "error" "Failed to handle transaction in the queue" [("error", err)]
    | none =>
      r.2.log "info" "Consume from queue successfully"
        [("txHash", ext.HashString r.1.1), ("address", address)]

/-- The loop `for len(s.queue) != 0 { ... }` of `consumeQueue`. -/
def consumeLoop (ext : Ext) (s : Server W) : Server W :=
  if s.queue.len ≠ 0 then consumeLoop ext (consumeBody ext s) else s
termination_by s.queue.len
decreasing_by
  rename_i h
  unfold consumeBody Chan.recv
  cases hb : s.queue.buf with
  | nil => simp [Chan.len, hb] at h
  | cons a rest =>
    simp only [Server.Transfer, Server.log]
    split <;> simp [Chan.len, hb]

/-- Method `consumeQueue`; `none` when the blocking `Lock` would wait. -/
def consumeQueue (ext : Ext) (s : Server W) : Option (Server W) :=
  if s.queue.len = 0 then some s
  else
    match s.Lock with
    | none => none
    | some s1 => some (consumeLoop ext s1).Unlock

/-- An inbound request as `handleClaim` reads it: the method, and the address that
`readAddress(r)` returns (the helper is not among the sources; its error is discarded by
the handler). -/
structure Request where
  Method : String
  address : String
deriving DecidableEq, Repr

/-- Modelled from the spec: the struct `claimResponse` is not among the sources; the
response body is the JSON object `{message}`, here its one field. -/
structure claimResponse where
  Message : String
deriving DecidableEq, Repr

/-- What was written to the response body. -/
inductive Body where
  | empty
  | text (s : String)
  | json (v : claimResponse)
deriving DecidableEq, Repr

/-- What the handler wrote to its `http.ResponseWriter`: the header entries it set
itself, the status code and the body. -/
structure Response where
  header : List (String × String)
  status : Nat
  body : Body
deriving DecidableEq, Repr

/-- The three `w.Header().Set` calls that open the handler. -/
def corsHeader : List (String × String) :=
  [("Access-Control-Allow-Origin", "*"),
   ("Access-Control-Allow-Methods", "GET, POST, OPTIONS"),
   ("Access-Control-Allow-Headers", "Content-Type")]

/-- Modelled from the spec: the helper `renderJSON` is not among the sources; it writes
the status code and the JSON rendering of the `{message}` value. -/
def renderJSON (header : List (String × String)) (v : claimResponse) (code : Nat) : Response :=
  { header := header, status := code, body := Body.json v }

/-- The contract interface literal of `handleClaim`, character for character. -/
def ABI : String :=
  "[\n" ++
  "\t\t\t\t\x7b\n" ++
  "\t\t\t\t\t\"inputs\": [\n" ++
  "\t\t\t\t\t\t\x7b\n" ++
  "\t\t\t\t\t\t\t\"internalType\": \"address\",\n" ++
  "\t\t\t\t\t\t\t\"name\": \"_owner\",\n" ++
  "\t\t\t\t\t\t\t\"type\": \"address\"\n" ++
  "\t\t\t\t\t\t\x7d,\n" ++
  "\t\t\t\t\t\t\x7b\n" ++
  "\t\t\t\t\t\t\t\"internalType\": \"address\",\n" ++
  "\t\t\t\t\t\t\t\"name\": \"_usdtAddress\",\n" ++
  "\t\t\t\t\t\t\t\"type\": \"address\"\n" ++
  "\t\t\t\t\t\t\x7d,\n" ++
  "\t\t\t\t\t\t\x7b\n" ++
  "\t\t\t\t\t\t\t\"internalType\": \"address\",\n" ++
  "\t\t\t\t\t\t\t\"name\": \"_usdcAddress\",\n" ++
  "\t\t\t\t\t\t\t\"type\": \"address\"\n" ++
  "\t\t\t\t\t\t\x7d\n" ++
  "\t\t\t\t\t],\n" ++
  "\t\t\t\t\t\"stateMutability\": \"nonpayable\",\n" ++
  "\t\t\t\t\t\"type\": \"constructor\"\n" ++
  "\t\t\t\t\x7d,\n" ++
  "\t\t\t\t\x7b\n" ++
  "\t\t\t\t\t\"inputs\": [\n" ++
  "\t\t\t\t\t\t\x7b\n" ++
  "\t\t\t\t\t\t\t\"internalType\": \"address\",\n" ++
  "\t\t\t\t\t\t\t\"name\": \"_to\",\n" ++
  "\t\t\t\t\t\t\t\"type\": \"address\"\n" ++
  "\t\t\t\t\t\t\x7d,\n" ++
  "\t\t\t\t\t\t\x7b\n" ++
  "\t\t\t\t\t\t\t\"internalType\": \"uint256\",\n" ++
  "\t\t\t\t\t\t\t\"name\": \"_ethAmount\",\n" ++
  "\t\t\t\t\t\t\t\"type\": \"uint256\"\n" ++
  "\t\t\t\t\t\t\x7d,\n" ++
  "\t\t\t\t\t\t\x7b\n" ++
  "\t\t\t\t\t\t\t\"internalType\": \"uint256\",\n" ++
  "\t\t\t\t\t\t\t\"name\": \"_usdtAmount\",\n" ++
  "\t\t\t\t\t\t\t\"type\": \"uint256\"\n" ++
  "\t\t\t\t\t\t\x7d,\n" ++
  "\t\t\t\t\t\t\x7b\n" ++
  "\t\t\t\t\t\t\t\"internalType\": \"uint256\",\n" ++
  "\t\t\t\t\t\t\t\"name\": \"_usdcAmount\",\n" ++
  "\t\t\t\t\t\t\t\"type\": \"uint256\"\n" ++
  "\t\t\t\t\t\t\x7d\n" ++
  "\t\t\t\t\t],\n" ++
  "\t\t\t\t\t\"name\": \"multiTransfer\",\n" ++
  "\t\t\t\t\t\"outputs\": [],\n" ++
  "\t\t\t\t\t\"stateMutability\": \"nonpayable\",\n" ++
  "\t\t\t\t\t\"type\": \"function\"\n" ++
  "\t\t\t\t\x7d,\n" ++
  "\t\t\t\t\x7b\n" ++
  "\t\t\t\t\t\"inputs\": [],\n" ++
  "\t\t\t\t\t\"name\": \"withdrawAllTokens\",\n" ++
  "\t\t\t\t\t\"outputs\": [],\n" ++
  "\t\t\t\t\t\"stateMutability\": \"nonpayable\",\n" ++
  "\t\t\t\t\t\"type\": \"function\"\n" ++
  "\t\t\t\t\x7d,\n" ++
  "\t\t\t\t\x7b\n" ++
  "\t\t\t\t\t\"stateMutability\": \"payable\",\n" ++
  "\t\t\t\t\t\"type\": \"receive\"\n" ++
  "\t\t\t\t\x7d\n" ++
  "\t\t\t]"

/-- The handler returned by `handleClaim`, applied to one request. -/
def handleClaim (ext : Ext) (r : Request) (s : Server W) : Response × Server W :=
  let header := corsHeader
  if r.Method = "OPTIONS" then
    ({ header := header, status := 200, body := Body.empty }, s)
  else if r.Method ≠ "POST" then
    ({ header := header, status := 404, body := Body.text "404 page not found\n" }, s)
  else
    let address := r.address
    -- `len(s.queue) != 0 || !s.mutex.TryLock()`, evaluated left to right
    let gate : Bool × Server W :=
      if s.queue.len ≠ 0 then (true, s) else ((!s.TryLock.1), s.TryLock.2)
    let s := gate.2
    if gate.1 then
      match s.queue.trySend address with
      | some q =>
        let s := { s with queue := q }
        let s := s.log "info" "Added to queue successfully" [("address", address)]
        let resp : claimResponse := { Message := "Added " ++ address ++ " to the queue" }
        (renderJSON header resp 200, s)
      | none =>
        let s := s.log "warning" "Max queue capacity reached" []
        (renderJSON header { Message := "Faucet queue is too long, please try again later" } 503, s)
    else
      -- `var txHash common.Hash; var err error`
      let out : (Hash × Option Err) × Server W :=
        if s.cfg.contractAddress.length = 0 then
          s.Transfer address (ext.EtherToWei s.cfg.ethAmount) s.cfg.gasPrice
        else
          -- `contract, err := abi.JSON(...)` declares a second `err`, local to this block
          let c := ext.JSON ABI
          let s := s.logIfErr c.2 "Failed to import ABI"
          let to_ := ext.HexToAddress address
          let ethAmount := s.cfg.ethAmount
          let usdtAmount := s.cfg.usdtAmount
          let usdcAmount := s.cfg.usdcAmount
          let d := ext.Pack c.1 "multiTransfer" to_ ethAmount usdtAmount usdcAmount
          let s := s.logIfErr d.2 "Failed to encode ABI"
          -- `txHash, err = s.MultiTransfer(...)` assigns the outer `txHash` and the
          -- block-local `err`; the outer `err` keeps its zero value nil
          let m := s.MultiTransfer s.cfg.contractAddress d.1 s.cfg.gasPrice
          ((m.1.1, none), m.2)
      let txHash := out.1.1
      let err := out.1.2
      let s := out.2.Unlock
      match err with
      | some e =>
        let s := s.log "error" "Failed to send transaction" [("error", e)]
        (renderJSON header { Message := e } 500, s)
      | none =>
        let s := s.log "info" "Funded directly successfully"
          [("txHash", ext.HashString txHash), ("address", address)]
        let resp : claimResponse := { Message := "TransactionHash:" ++ ext.HashString txHash }
        (renderJSON header resp 200, s)

end server

/-! ## Observation helpers used by the statements -/

namespace chain

variable {σ : Type}

/-- The calls recorded in `w1` after those already recorded in `w`. -/
def World.since (w1 w : World σ) : List Op :=
  w1.ops.drop w.ops.length

/-- Is the call a pending-nonce query? -/
def Op.isPendingNonceAt : Op → Bool
  | Op.PendingNonceAt _ => true
  | _ => false

/-- Is the call a suggested-gas-price query? -/
def Op.isSuggestGasPrice : Op → Bool
  | Op.SuggestGasPrice => true
  | _ => false

/-- Is the call a signing? -/
def Op.isSignTx : Op → Bool
  | Op.SignTx _ => true
  | _ => false

/-- Is the call a broadcast? -/
def Op.isSendTransaction : Op → Bool
  | Op.SendTransaction _ => true
  | _ => false

/-- The unsigned transactions handed to the signer, in order. -/
def signedPayloads : List Op → List LegacyTx
  | [] => []
  | Op.SignTx tx :: rest => tx :: signedPayloads rest
  | _ :: rest => signedPayloads rest

/-- The gas-price step of a builder call entered in ledger state `st1` went through:
it produced price `p`, left the ledger in `st2` and made the calls `gops`. -/
def GasResolved (b : TxBuild σ) (gasprice : Int) (st1 : σ) (p : Int) (st2 : σ)
    (gops : List Op) : Prop :=
  (gasprice ≠ 0 ∧ p = gasprice ∧ st2 = st1 ∧ gops = []) ∨
  (gasprice = 0 ∧ b.client.SuggestGasPrice st1 = ((p, none), st2) ∧
    gops = [Op.SuggestGasPrice])

/-- The ways one builder call can run, as the list of calls it records: `tx` is the
transaction a signing call would receive. -/
def CallShape (l : List Op) (tx : LegacyTx → Prop) : Prop :=
  (∃ a, l = [Op.PendingNonceAt a]) ∨
  (∃ a, l = [Op.PendingNonceAt a, Op.SuggestGasPrice]) ∨
  (∃ a t, tx t ∧ l = [Op.PendingNonceAt a, Op.SignTx t]) ∨
  (∃ a t, tx t ∧ l = [Op.PendingNonceAt a, Op.SuggestGasPrice, Op.SignTx t]) ∨
  (∃ a t u, tx t ∧ l = [Op.PendingNonceAt a, Op.SignTx t, Op.SendTransaction u]) ∨
  (∃ a t u, tx t ∧
    l = [Op.PendingNonceAt a, Op.SuggestGasPrice, Op.SignTx t, Op.SendTransaction u])

end chain

namespace server

open chain

variable {W : Type}

/-- The lock and builder calls recorded in `s1` after those already recorded in `s`. -/
def Server.since (s1 s : Server W) : List Event :=
  s1.trace.drop s.trace.length

/-- Is the event a call to the builder? -/
def Event.isBuilderCall : Event → Bool
  | Event.Transfer _ _ _ => true
  | Event.MultiTransfer _ _ _ => true
  | _ => false

end server

/-! ## Concurrent runs: request handlers and the drain worker interleaved

`Run` starts one goroutine that calls `consumeQueue` on every tick, and the HTTP server
runs one goroutine per request.  They share the lock, the queue and the builder.  Below,
every access to shared state is one step of the unit that makes it, steps of different
units interleave in any order, and a unit whose next action has to wait (`Lock` on a held
lock, a receive on an empty channel) has no step.  A call to the builder is outstanding
from the step that reaches `dispatch` or `call` until the step that leaves it. -/

namespace server

open chain

variable {W : Type}

/-- A unit of execution: the run of `handleClaim` serving request `i`, or the drain worker. -/
inductive Proc where
  | handler (i : Nat)
  | drain
deriving DecidableEq, Repr

/-- Where one run of `handleClaim` stands. -/
inductive HPc where
  /-- the request has arrived; the method tests and `len(s.queue) != 0` come next -/
  | start
  /-- the queue was empty; `s.mutex.TryLock()` comes next -/
  | tryLock
  /-- the gate condition held; the `select` comes next -/
  | send
  /-- `TryLock` succeeded; the builder call is outstanding -/
  | dispatch
  /-- the builder call returned `out`; `s.mutex.Unlock()` comes next -/
  | unlock (out : Hash × Option Err)
  /-- the handler returned, having written `resp` -/
  | done (resp : Response)
deriving DecidableEq, Repr

/-- Where the drain worker stands. -/
inductive DPc where
  /-- between two calls of `consumeQueue`; the test `len(s.queue) == 0` comes next -/
  | idle
  /-- the queue was non-empty; `s.mutex.Lock()` comes next -/
  | lock
  /-- the lock is held; the loop test `len(s.queue) != 0` comes next -/
  | loop
  /-- the loop test held; the receive `<-s.queue` comes next -/
  | recv
  /-- `address` was received; the call `s.Transfer` is outstanding -/
  | call (address : String)
  /-- the loop ended; the deferred `s.mutex.Unlock()` comes next -/
  | unlock
deriving DecidableEq, Repr

/-- The shared server, the request each handler run serves, and where every unit stands. -/
structure Sys (W : Type) where
  srv : Server W
  req : Nat → Request
  hpc : Nat → HPc
  dpc : DPc

/-- The system at start-up: no request handled yet, the drain worker between ticks. -/
def Sys.init (s : Server W) (req : Nat → Request) : Sys W :=
  { srv := s, req := req, hpc := fun _ => HPc.start, dpc := DPc.idle }

/-- Move handler `i` to `pc`, with the server now `s`. -/
def Sys.setH (x : Sys W) (i : Nat) (s : Server W) (pc : HPc) : Sys W :=
  { x with srv := s, hpc := Function.update x.hpc i pc }

/-- Move the drain worker to `pc`, with the server now `s`. -/
def Sys.setD (x : Sys W) (s : Server W) (pc : DPc) : Sys W :=
  { x with srv := s, dpc := pc }

/-- The builder call of `handleClaim` (lines 120-200 of `server.go`), with the values left
in the outer `txHash` and `err`. -/
def claimDispatch (ext : Ext) (address : String) (s : Server W) :
    (Hash × Option Err) × Server W :=
  if s.cfg.contractAddress.length = 0 then
    s.Transfer address (ext.EtherToWei s.cfg.ethAmount) s.cfg.gasPrice
  else
    let c := ext.JSON ABI
    let s := s.logIfErr c.2 "Failed to import ABI"
    let to_ := ext.HexToAddress address
    let d := ext.Pack c.1 "multiTransfer" to_ s.cfg.ethAmount s.cfg.usdtAmount s.cfg.usdcAmount
    let s := s.logIfErr d.2 "Failed to encode ABI"
    let m := s.MultiTransfer s.cfg.contractAddress d.1 s.cfg.gasPrice
    ((m.1.1, none), m.2)

/-- One step of the run of `handleClaim` for request `i`; `none` once it has returned. -/
def stepHandler (ext : Ext) (i : Nat) (x : Sys W) : Option (Sys W) :=
  match x.hpc i with
  | HPc.start =>
    if (x.req i).Method = "OPTIONS" then
      some (x.setH i x.srv (HPc.done { header := corsHeader, status := 200, body := Body.empty }))
    else if (x.req i).Method ≠ "POST" then
      some (x.setH i x.srv
        (HPc.done { header := corsHeader, status := 404,
                    body := Body.text "404 page not found\n" }))
    else if x.srv.queue.len ≠ 0 then some (x.setH i x.srv HPc.send)
    else some (x.setH i x.srv HPc.tryLock)
  | HPc.tryLock =>
    some (x.setH i x.srv.TryLock.2 (if x.srv.TryLock.1 then HPc.dispatch else HPc.send))
  | HPc.send =>
    match x.srv.queue.trySend (x.req i).address with
    | some q =>
      some (x.setH i
        (Server.log { x.srv with queue := q } "info" "Added to queue successfully"
          [("address", (x.req i).address)])
        (HPc.done (renderJSON corsHeader
          { Message := "Added " ++ (x.req i).address ++ " to the queue" } 200)))
    | none =>
      some (x.setH i (x.srv.log "warning" "Max queue capacity reached" [])
        (HPc.done (renderJSON corsHeader
          { Message := "Faucet queue is too long, please try again later" } 503)))
  | HPc.dispatch =>
    some (x.setH i (claimDispatch ext (x.req i).address x.srv).2
      (HPc.unlock (claimDispatch ext (x.req i).address x.srv).1))
  | HPc.unlock out =>
    match out.2 with
    | some e =>
      some (x.setH i (x.srv.Unlock.log "error" "Failed to send transaction" [("error", e)])
        (HPc.done (renderJSON corsHeader { Message := e } 500)))
    | none =>
      some (x.setH i
        (x.srv.Unlock.log "info" "Funded directly successfully"
          [("txHash", ext.HashString out.1), ("address", (x.req i).address)])
        (HPc.done (renderJSON corsHeader
          { Message := "TransactionHash:" ++ ext.HashString out.1 } 200)))
  | HPc.done _ => none

/-- One step of the drain worker; `none` while it has to wait. -/
def stepDrain (ext : Ext) (x : Sys W) : Option (Sys W) :=
  match x.dpc with
  | DPc.idle =>
    if x.srv.queue.len = 0 then some (x.setD x.srv DPc.idle)
    else some (x.setD x.srv DPc.lock)
  | DPc.lock =>
    match x.srv.Lock with
    | none => none
    | some s => some (x.setD s DPc.loop)
  | DPc.loop =>
    if x.srv.queue.len ≠ 0 then some (x.setD x.srv DPc.recv)
    else some (x.setD x.srv DPc.unlock)
  | DPc.recv =>
    match x.srv.queue.recv with
    | none => none
    | some (address, q) => some (x.setD { x.srv with queue := q } (DPc.call address))
  | DPc.call address =>
    let r := x.srv.Transfer address (ext.EtherToWei x.srv.cfg.ethAmount) x.srv.cfg.gasPrice
    match r.1.2 with
    | some err =>
      some (x.setD
        (r.2.log "error" "Failed to handle transaction in the queue" [("error", err)])
        DPc.loop)
    | none =>
      some (x.setD
        (r.2.log "info" "Consume from queue successfully"
          [("txHash", ext.HashString r.1.1), ("address", address)])
        DPc.loop)
  | DPc.unlock => some (x.setD x.srv.Unlock DPc.idle)

/-- One step of unit `u`. -/
def step (ext : Ext) (x : Sys W) (u : Proc) : Option (Sys W) :=
  match u with
  | Proc.handler i => stepHandler ext i x
  | Proc.drain => stepDrain ext x

/-- The state reached when the units move in the order `sched`; a unit that cannot move
when its turn comes is passed over. -/
def exec (ext : Ext) (sched : List Proc) (x : Sys W) : Sys W :=
  sched.foldl (fun y u => (step ext y u).getD y) x

/-- Has the handler run acquired the lock and not yet released it? -/
def HPc.holds : HPc → Bool
  | HPc.dispatch => true
  | HPc.unlock _ => true
  | _ => false

/-- Has the drain worker acquired the lock and not yet released it? -/
def DPc.holds : DPc → Bool
  | DPc.loop => true
  | DPc.recv => true
  | DPc.call _ => true
  | DPc.unlock => true
  | _ => false

/-- Unit `u` has acquired the lock and not yet released it. -/
def Sys.holds (x : Sys W) : Proc → Bool
  | Proc.handler i => (x.hpc i).holds
  | Proc.drain => x.dpc.holds

/-- Unit `u` has a builder call outstanding. -/
def Sys.dispatching (x : Sys W) : Proc → Bool
  | Proc.handler i => (match x.hpc i with | HPc.dispatch => true | _ => false)
  | Proc.drain => (match x.dpc with | DPc.call _ => true | _ => false)

/-- The lock call by which a unit acquires the lock: a successful `TryLock` in a handler
run, `Lock` in the drain worker. -/
def Proc.acquire : Proc → Event
  | Proc.handler _ => Event.TryLock true
  | Proc.drain => Event.Lock

/-- Single-flight discipline of a state: whoever is between acquire and release finds the
lock held, and no two units are there at once. -/
def Sys.Exclusive (x : Sys W) : Prop :=
  (∀ u, x.holds u = true → x.srv.mutex.locked = true) ∧
  (∀ u v, x.holds u = true → x.holds v = true → u = v)

end server

/-! ## Concrete collaborators for the worked instances -/

namespace fixture

open chain server

/-- A ledger whose state is the sender's pending nonce; each stage fails with the given
error when one is given. -/
def client (nonceErr gasErr sendErr : Option Err) : Client Nat :=
  { PendingNonceAt := fun _ n => ((match nonceErr with | some _ => 0 | none => n, nonceErr), n),
    SuggestGasPrice := fun n => ((match gasErr with | some _ => 0 | none => 7, gasErr), n),
    SendTransaction := fun _ n => (sendErr, match sendErr with | some _ => n | none => n + 1) }

/-- A builder over `client`; the signature is the nonce plus one, the hash is the nonce
plus one hundred, an address is the length of its text. -/
def build (nonceErr gasErr signErr sendErr : Option Err) : TxBuild Nat :=
  { client := client nonceErr gasErr sendErr,
    SignTx := fun t => ({ tx := t, sig := t.Nonce + 1 }, signErr),
    HexToAddress := fun a => a.length,
    TxHash := fun t => t.tx.Nonce + 100,
    fromAddress := 5 }

/-- Pure helpers: one ether is `10 ^ 18` wei; the encoding lists the four arguments;
a hash prints as its hexadecimal digits. -/
def ext (packErr : Option Err) : Ext :=
  { EtherToWei := fun a => a * 10 ^ 18,
    AbiT := Unit,
    JSON := fun _ => ((), none),
    Pack := fun _ _ a b c d =>
      (match packErr with | some _ => [] | none => [a, b.toNat, c.toNat, d.toNat], packErr),
    HexToAddress := fun a => a.length,
    HashString := fun h => "0x" ++ String.mk (Nat.toDigits 16 h) }

/-- A fresh ledger. -/
def w0 : World Nat :=
  { st := 0, ops := [] }

/-- No contract address, one ether per claim, gas price override zero, capacity two. -/
def cfgPlain : Config :=
  NewConfig 8080 0 2 "" 1 0 0 1 0 "testnet"

/-- As `cfgPlain`, with a contract address and token amounts configured. -/
def cfgContract : Config :=
  NewConfig 8080 0 2 "0xC0" 1 2 3 1 0 "testnet"

/-- A server in the given state. -/
def srv (b : TxBuild Nat) (cfg : Config) (locked : Bool) (buf : List String) :
    Server (World Nat) :=
  { builder := ofTxBuild b, mutex := { locked := locked }, cfg := cfg,
    queue := { buf := buf, cap := 2 }, world := w0, trace := [], logs := [] }

/-- Two claims: request 0 for `0xA`, every other request for `0xB`. -/
def reqs (i : Nat) : Request :=
  { Method := "POST", address := if i = 0 then "0xA" else "0xB" }

/-- Start-up with a contract address configured, lock free, queue empty. -/
def sys0 : Sys (World Nat) :=
  Sys.init (srv (build none none none none) cfgContract false []) reqs

/-- Handlers 0 and 1 both find the queue empty, then both try the lock, 0 first. -/
def race : List Proc :=
  [Proc.handler 0, Proc.handler 1, Proc.handler 0, Proc.handler 1]

end fixture

end Faucet

/-! ## The transaction builder, stage by stage -/

namespace Faucet

namespace chain

variable {σ : Type}

theorem since_of_ops (w1 w : World σ) (l : List Op) (h : w1.ops = w.ops ++ l) :
    w1.since w = l := by
  simp [World.since, h]

theorem Transfer_nonce_err (b : TxBuild σ) (to_ : String) (value gasprice : Int) (w : World σ)
    (n : Nat) (e : Err) (st1 : σ)
    (hn : b.client.PendingNonceAt b.fromAddress w.st = ((n, some e), st1)) :
    b.Transfer to_ value gasprice w
      = ((0, some e), { st := st1, ops := w.ops ++ [Op.PendingNonceAt b.fromAddress] }) := by
  simp [TxBuild.Transfer, TxBuild.callPendingNonceAt, TxBuild.Sender, hn]

theorem MultiTransfer_nonce_err (b : TxBuild σ) (to_ : String) (data : List Nat)
    (gasprice : Int) (w : World σ) (n : Nat) (e : Err) (st1 : σ)
    (hn : b.client.PendingNonceAt b.fromAddress w.st = ((n, some e), st1)) :
    b.MultiTransfer to_ data gasprice w
      = ((0, some e), { st := st1, ops := w.ops ++ [Op.PendingNonceAt b.fromAddress] }) := by
  simp [TxBuild.MultiTransfer, TxBuild.callPendingNonceAt, TxBuild.Sender, hn]

theorem Transfer_gas_err (b : TxBuild σ) (to_ : String) (value : Int) (w : World σ)
    (n : Nat) (st1 : σ) (p : Int) (e : Err) (st2 : σ)
    (hn : b.client.PendingNonceAt b.fromAddress w.st = ((n, none), st1))
    (hg : b.client.SuggestGasPrice st1 = ((p, some e), st2)) :
    b.Transfer to_ value 0 w
      = ((0, some e),
         { st := st2, ops := w.ops ++ [Op.PendingNonceAt b.fromAddress, Op.SuggestGasPrice] }) := by
  simp [TxBuild.Transfer, TxBuild.callPendingNonceAt, TxBuild.callSuggestGasPrice,
    TxBuild.Sender, hn, hg]

theorem MultiTransfer_gas_err (b : TxBuild σ) (to_ : String) (data : List Nat) (w : World σ)
    (n : Nat) (st1 : σ) (p : Int) (e : Err) (st2 : σ)
    (hn : b.client.PendingNonceAt b.fromAddress w.st = ((n, none), st1))
    (hg : b.client.SuggestGasPrice st1 = ((p, some e), st2)) :
    b.MultiTransfer to_ data 0 w
      = ((0, some e),
         { st := st2, ops := w.ops ++ [Op.PendingNonceAt b.fromAddress, Op.SuggestGasPrice] }) := by
  simp [TxBuild.MultiTransfer, TxBuild.callPendingNonceAt, TxBuild.callSuggestGasPrice,
    TxBuild.Sender, hn, hg]

theorem Transfer_sign_err (b : TxBuild σ) (to_ : String) (value gasprice : Int) (w : World σ)
    (n : Nat) (st1 : σ) (p : Int) (st2 : σ) (gops : List Op) (stx : SignedTx) (e : Err)
    (hn : b.client.PendingNonceAt b.fromAddress w.st = ((n, none), st1))
    (hg : GasResolved b gasprice st1 p st2 gops)
    (hs : b.SignTx { Nonce := n, To := b.HexToAddress to_, Value := value, Data := [],
                     Gas := 50000, GasPrice := p } = (stx, some e)) :
    b.Transfer to_ value gasprice w
      = ((0, some e),
         { st := st2,
           ops := w.ops ++ ([Op.PendingNonceAt b.fromAddress] ++ gops ++
             [Op.SignTx { Nonce := n, To := b.HexToAddress to_, Value := value, Data := [],
                          Gas := 50000, GasPrice := p }]) }) := by
  rcases hg with ⟨h0, hp, hst, hgo⟩ | ⟨h0, hsg, hgo⟩
  · subst hp hst hgo
    simp [TxBuild.Transfer, TxBuild.callPendingNonceAt, TxBuild.callSignTx, TxBuild.Sender,
      hn, h0, hs]
  · subst h0 hgo
    simp [TxBuild.Transfer, TxBuild.callPendingNonceAt, TxBuild.callSuggestGasPrice,
      TxBuild.callSignTx, TxBuild.Sender, hn, hsg, hs]

theorem MultiTransfer_sign_err (b : TxBuild σ) (to_ : String) (data : List Nat)
    (gasprice : Int) (w : World σ)
    (n : Nat) (st1 : σ) (p : Int) (st2 : σ) (gops : List Op) (stx : SignedTx) (e : Err)
    (hn : b.client.PendingNonceAt b.fromAddress w.st = ((n, none), st1))
    (hg : GasResolved b gasprice st1 p st2 gops)
    (hs : b.SignTx { Nonce := n, To := b.HexToAddress to_, Value := 0, Data := data,
                     Gas := 500000, GasPrice := p } = (stx, some e)) :
    b.MultiTransfer to_ data gasprice w
      = ((0, some e),
         { st := st2,
           ops := w.ops ++ ([Op.PendingNonceAt b.fromAddress] ++ gops ++
             [Op.SignTx { Nonce := n, To := b.HexToAddress to_, Value := 0, Data := data,
                          Gas := 500000, GasPrice := p }]) }) := by
  rcases hg with ⟨h0, hp, hst, hgo⟩ | ⟨h0, hsg, hgo⟩
  · subst hp hst hgo
    simp [TxBuild.MultiTransfer, TxBuild.callPendingNonceAt, TxBuild.callSignTx,
      TxBuild.Sender, hn, h0, hs]
  · subst h0 hgo
    simp [TxBuild.MultiTransfer, TxBuild.callPendingNonceAt, TxBuild.callSuggestGasPrice,
      TxBuild.callSignTx, TxBuild.Sender, hn, hsg, hs]

theorem Transfer_sent (b : TxBuild σ) (to_ : String) (value gasprice : Int) (w : World σ)
    (n : Nat) (st1 : σ) (p : Int) (st2 : σ) (gops : List Op) (stx : SignedTx)
    (err : Option Err) (st3 : σ)
    (hn : b.client.PendingNonceAt b.fromAddress w.st = ((n, none), st1))
    (hg : GasResolved b gasprice st1 p st2 gops)
    (hs : b.SignTx { Nonce := n, To := b.HexToAddress to_, Value := value, Data := [],
                     Gas := 50000, GasPrice := p } = (stx, none))
    (hb : b.client.SendTransaction stx st2 = (err, st3)) :
    b.Transfer to_ value gasprice w
      = ((b.TxHash stx, err),
         { st := st3,
           ops := w.ops ++ ([Op.PendingNonceAt b.fromAddress] ++ gops ++
             [Op.SignTx { Nonce := n, To := b.HexToAddress to_, Value := value, Data := [],
                          Gas := 50000, GasPrice := p },
              Op.SendTransaction stx]) }) := by
  rcases hg with ⟨h0, hp, hst, hgo⟩ | ⟨h0, hsg, hgo⟩
  · subst hp hst hgo
    simp [TxBuild.Transfer, TxBuild.callPendingNonceAt, TxBuild.callSignTx,
      TxBuild.callSendTransaction, TxBuild.Sender, hn, h0, hs, hb]
  · subst h0 hgo
    simp [TxBuild.Transfer, TxBuild.callPendingNonceAt, TxBuild.callSuggestGasPrice,
      TxBuild.callSignTx, TxBuild.callSendTransaction, TxBuild.Sender, hn, hsg, hs, hb]

theorem MultiTransfer_sent (b : TxBuild σ) (to_ : String) (data : List Nat) (gasprice : Int)
    (w : World σ)
    (n : Nat) (st1 : σ) (p : Int) (st2 : σ) (gops : List Op) (stx : SignedTx)
    (err : Option Err) (st3 : σ)
    (hn : b.client.PendingNonceAt b.fromAddress w.st = ((n, none), st1))
    (hg : GasResolved b gasprice st1 p st2 gops)
    (hs : b.SignTx { Nonce := n, To := b.HexToAddress to_, Value := 0, Data := data,
                     Gas := 500000, GasPrice := p } = (stx, none))
    (hb : b.client.SendTransaction stx st2 = (err, st3)) :
    b.MultiTransfer to_ data gasprice w
      = ((b.TxHash stx, err),
         { st := st3,
           ops := w.ops ++ ([Op.PendingNonceAt b.fromAddress] ++ gops ++
             [Op.SignTx { Nonce := n, To := b.HexToAddress to_, Value := 0, Data := data,
                          Gas := 500000, GasPrice := p },
              Op.SendTransaction stx]) }) := by
  rcases hg with ⟨h0, hp, hst, hgo⟩ | ⟨h0, hsg, hgo⟩
  · subst hp hst hgo
    simp [TxBuild.MultiTransfer, TxBuild.callPendingNonceAt, TxBuild.callSignTx,
      TxBuild.callSendTransaction, TxBuild.Sender, hn, h0, hs, hb]
  · subst h0 hgo
    simp [TxBuild.MultiTransfer, TxBuild.callPendingNonceAt, TxBuild.callSuggestGasPrice,
      TxBuild.callSignTx, TxBuild.callSendTransaction, TxBuild.Sender, hn, hsg, hs, hb]

theorem CallShape_counts (l : List Op) (tx : LegacyTx → Prop) (h : CallShape l tx) :
    l.countP Op.isPendingNonceAt ≤ 1 ∧ l.countP Op.isSuggestGasPrice ≤ 1 ∧
    l.countP Op.isSignTx ≤ 1 ∧ l.countP Op.isSendTransaction ≤ 1 ∧
    (∀ t ∈ signedPayloads l, tx t) := by
  rcases h with ⟨a, rfl⟩ | ⟨a, rfl⟩ | ⟨a, t, ht, rfl⟩ | ⟨a, t, ht, rfl⟩ | ⟨a, t, u, ht, rfl⟩ |
    ⟨a, t, u, ht, rfl⟩ <;>
  simp_all [List.countP_cons, Op.isPendingNonceAt, Op.isSuggestGasPrice, Op.isSignTx,
    Op.isSendTransaction, signedPayloads]

theorem Transfer_shape (b : TxBuild σ) (to_ : String) (value gasprice : Int) (w : World σ) :
    ∃ l, (b.Transfer to_ value gasprice w).2.ops = w.ops ++ l ∧
      CallShape l (fun t => t.To = b.HexToAddress to_ ∧ t.Value = value ∧ t.Data = [] ∧
        t.Gas = 50000) := by
  rcases hn : b.client.PendingNonceAt b.fromAddress w.st with ⟨⟨n, _ | e⟩, st1⟩
  · by_cases h0 : gasprice = 0
    · subst h0
      rcases hg : b.client.SuggestGasPrice st1 with ⟨⟨p, _ | e⟩, st2⟩
      · have hG : GasResolved b 0 st1 p st2 [Op.SuggestGasPrice] := Or.inr ⟨rfl, hg, rfl⟩
        rcases hs : b.SignTx (LegacyTx.mk n (b.HexToAddress to_) value [] 50000 p) with ⟨stx, _ | e⟩
        · rw [Transfer_sent b to_ value 0 w n st1 p st2 _ stx _ _ hn hG hs rfl]
          exact ⟨_, rfl, Or.inr (Or.inr (Or.inr (Or.inr (Or.inr
            ⟨_, _, _, ⟨rfl, rfl, rfl, rfl⟩, rfl⟩))))⟩
        · rw [Transfer_sign_err b to_ value 0 w n st1 p st2 _ stx e hn hG hs]
          exact ⟨_, rfl, Or.inr (Or.inr (Or.inr (Or.inl ⟨_, _, ⟨rfl, rfl, rfl, rfl⟩, rfl⟩)))⟩
      · rw [Transfer_gas_err b to_ value w n st1 p e st2 hn hg]
        exact ⟨_, rfl, Or.inr (Or.inl ⟨_, rfl⟩)⟩
    · have hG : GasResolved b gasprice st1 gasprice st1 [] := Or.inl ⟨h0, rfl, rfl, rfl⟩
      rcases hs : b.SignTx (LegacyTx.mk n (b.HexToAddress to_) value [] 50000 gasprice)
        with ⟨stx, _ | e⟩
      · rw [Transfer_sent b to_ value gasprice w n st1 gasprice st1 _ stx _ _ hn hG hs rfl]
        exact ⟨_, rfl, Or.inr (Or.inr (Or.inr (Or.inr (Or.inl
          ⟨_, _, _, ⟨rfl, rfl, rfl, rfl⟩, rfl⟩))))⟩
      · rw [Transfer_sign_err b to_ value gasprice w n st1 gasprice st1 _ stx e hn hG hs]
        exact ⟨_, rfl, Or.inr (Or.inr (Or.inl ⟨_, _, ⟨rfl, rfl, rfl, rfl⟩, rfl⟩))⟩
  · rw [Transfer_nonce_err b to_ value gasprice w n e st1 hn]
    exact ⟨_, rfl, Or.inl ⟨_, rfl⟩⟩

theorem MultiTransfer_shape (b : TxBuild σ) (to_ : String) (data : List Nat) (gasprice : Int)
    (w : World σ) :
    ∃ l, (b.MultiTransfer to_ data gasprice w).2.ops = w.ops ++ l ∧
      CallShape l (fun t => t.To = b.HexToAddress to_ ∧ t.Value = 0 ∧ t.Data = data ∧
        t.Gas = 500000) := by
  rcases hn : b.client.PendingNonceAt b.fromAddress w.st with ⟨⟨n, _ | e⟩, st1⟩
  · by_cases h0 : gasprice = 0
    · subst h0
      rcases hg : b.client.SuggestGasPrice st1 with ⟨⟨p, _ | e⟩, st2⟩
      · have hG : GasResolved b 0 st1 p st2 [Op.SuggestGasPrice] := Or.inr ⟨rfl, hg, rfl⟩
        rcases hs : b.SignTx (LegacyTx.mk n (b.HexToAddress to_) 0 data 500000 p) with ⟨stx, _ | e⟩
        · rw [MultiTransfer_sent b to_ data 0 w n st1 p st2 _ stx _ _ hn hG hs rfl]
          exact ⟨_, rfl, Or.inr (Or.inr (Or.inr (Or.inr (Or.inr
            ⟨_, _, _, ⟨rfl, rfl, rfl, rfl⟩, rfl⟩))))⟩
        · rw [MultiTransfer_sign_err b to_ data 0 w n st1 p st2 _ stx e hn hG hs]
          exact ⟨_, rfl, Or.inr (Or.inr (Or.inr (Or.inl ⟨_, _, ⟨rfl, rfl, rfl, rfl⟩, rfl⟩)))⟩
      · rw [MultiTransfer_gas_err b to_ data w n st1 p e st2 hn hg]
        exact ⟨_, rfl, Or.inr (Or.inl ⟨_, rfl⟩)⟩
    · have hG : GasResolved b gasprice st1 gasprice st1 [] := Or.inl ⟨h0, rfl, rfl, rfl⟩
      rcases hs : b.SignTx (LegacyTx.mk n (b.HexToAddress to_) 0 data 500000 gasprice)
        with ⟨stx, _ | e⟩
      · rw [MultiTransfer_sent b to_ data gasprice w n st1 gasprice st1 _ stx _ _ hn hG hs rfl]
        exact ⟨_, rfl, Or.inr (Or.inr (Or.inr (Or.inr (Or.inl
          ⟨_, _, _, ⟨rfl, rfl, rfl, rfl⟩, rfl⟩))))⟩
      · rw [MultiTransfer_sign_err b to_ data gasprice w n st1 gasprice st1 _ stx e hn hG hs]
        exact ⟨_, rfl, Or.inr (Or.inr (Or.inl ⟨_, _, ⟨rfl, rfl, rfl, rfl⟩, rfl⟩))⟩
  · rw [MultiTransfer_nonce_err b to_ data gasprice w n e st1 hn]
    exact ⟨_, rfl, Or.inl ⟨_, rfl⟩⟩

theorem GasResolved_payloads (b : TxBuild σ) (gasprice : Int) (st1 : σ) (p : Int) (st2 : σ)
    (gops : List Op) (hg : GasResolved b gasprice st1 p st2 gops) (rest : List Op) :
    signedPayloads (gops ++ rest) = signedPayloads rest := by
  rcases hg with ⟨-, -, -, h⟩ | ⟨-, -, h⟩ <;> subst h <;> simp [signedPayloads]

theorem Transfer_payloads (b : TxBuild σ) (to_ : String) (value gasprice : Int) (w : World σ)
    (n : Nat) (st1 : σ) (p : Int) (st2 : σ) (gops : List Op)
    (hn : b.client.PendingNonceAt b.fromAddress w.st = ((n, none), st1))
    (hg : GasResolved b gasprice st1 p st2 gops) :
    signedPayloads ((b.Transfer to_ value gasprice w).2.since w)
      = [{ Nonce := n, To := b.HexToAddress to_, Value := value, Data := [],
           Gas := 50000, GasPrice := p }] := by
  rcases hs : b.SignTx (LegacyTx.mk n (b.HexToAddress to_) value [] 50000 p)
    with ⟨stx, _ | e⟩
  · rw [Transfer_sent b to_ value gasprice w n st1 p st2 gops stx _ _ hn hg hs rfl]
    simp [World.since, signedPayloads, GasResolved_payloads b gasprice st1 p st2 gops hg]
  · rw [Transfer_sign_err b to_ value gasprice w n st1 p st2 gops stx e hn hg hs]
    simp [World.since, signedPayloads, GasResolved_payloads b gasprice st1 p st2 gops hg]

theorem MultiTransfer_payloads (b : TxBuild σ) (to_ : String) (data : List Nat)
    (gasprice : Int) (w : World σ)
    (n : Nat) (st1 : σ) (p : Int) (st2 : σ) (gops : List Op)
    (hn : b.client.PendingNonceAt b.fromAddress w.st = ((n, none), st1))
    (hg : GasResolved b gasprice st1 p st2 gops) :
    signedPayloads ((b.MultiTransfer to_ data gasprice w).2.since w)
      = [{ Nonce := n, To := b.HexToAddress to_, Value := 0, Data := data,
           Gas := 500000, GasPrice := p }] := by
  rcases hs : b.SignTx (LegacyTx.mk n (b.HexToAddress to_) 0 data 500000 p)
    with ⟨stx, _ | e⟩
  · rw [MultiTransfer_sent b to_ data gasprice w n st1 p st2 gops stx _ _ hn hg hs rfl]
    simp [World.since, signedPayloads, GasResolved_payloads b gasprice st1 p st2 gops hg]
  · rw [MultiTransfer_sign_err b to_ data gasprice w n st1 p st2 gops stx e hn hg hs]
    simp [World.since, signedPayloads, GasResolved_payloads b gasprice st1 p st2 gops hg]

theorem Transfer_every_payload (b : TxBuild σ) (to_ : String) (value gasprice : Int)
    (w : World σ) :
    ∀ t ∈ signedPayloads ((b.Transfer to_ value gasprice w).2.since w),
      t.To = b.HexToAddress to_ ∧ t.Value = value ∧ t.Data = [] ∧ t.Gas = 50000 := by
  obtain ⟨l, hl, hsh⟩ := Transfer_shape b to_ value gasprice w
  rw [since_of_ops _ _ l hl]
  exact (CallShape_counts l _ hsh).2.2.2.2

theorem MultiTransfer_every_payload (b : TxBuild σ) (to_ : String) (data : List Nat)
    (gasprice : Int) (w : World σ) :
    ∀ t ∈ signedPayloads ((b.MultiTransfer to_ data gasprice w).2.since w),
      t.To = b.HexToAddress to_ ∧ t.Value = 0 ∧ t.Data = data ∧ t.Gas = 500000 := by
  obtain ⟨l, hl, hsh⟩ := MultiTransfer_shape b to_ data gasprice w
  rw [since_of_ops _ _ l hl]
  exact (CallShape_counts l _ hsh).2.2.2.2

theorem GasResolved_queries (b : TxBuild σ) (gasprice : Int) (st1 : σ) (p : Int) (st2 : σ)
    (gops : List Op) (hg : GasResolved b gasprice st1 p st2 gops) :
    gops.countP Op.isSuggestGasPrice = gops.length := by
  rcases hg with ⟨-, -, -, h⟩ | ⟨-, -, h⟩ <;> subst h <;>
    simp [List.countP_cons, Op.isSuggestGasPrice]

theorem Transfer_gas_queries (b : TxBuild σ) (to_ : String) (value gasprice : Int)
    (w : World σ) (n : Nat) (st1 : σ) (p : Int) (st2 : σ) (gops : List Op)
    (hn : b.client.PendingNonceAt b.fromAddress w.st = ((n, none), st1))
    (hg : GasResolved b gasprice st1 p st2 gops) :
    ((b.Transfer to_ value gasprice w).2.since w).countP Op.isSuggestGasPrice
      = gops.length := by
  rcases hs : b.SignTx (LegacyTx.mk n (b.HexToAddress to_) value [] 50000 p)
    with ⟨stx, _ | e⟩
  · rw [Transfer_sent b to_ value gasprice w n st1 p st2 gops stx _ _ hn hg hs rfl]
    simp [World.since, List.countP_cons, Op.isSuggestGasPrice,
      GasResolved_queries b gasprice st1 p st2 gops hg]
  · rw [Transfer_sign_err b to_ value gasprice w n st1 p st2 gops stx e hn hg hs]
    simp [World.since, List.countP_cons, Op.isSuggestGasPrice,
      GasResolved_queries b gasprice st1 p st2 gops hg]

theorem MultiTransfer_gas_queries (b : TxBuild σ) (to_ : String) (data : List Nat)
    (gasprice : Int) (w : World σ) (n : Nat) (st1 : σ) (p : Int) (st2 : σ) (gops : List Op)
    (hn : b.client.PendingNonceAt b.fromAddress w.st = ((n, none), st1))
    (hg : GasResolved b gasprice st1 p st2 gops) :
    ((b.MultiTransfer to_ data gasprice w).2.since w).countP Op.isSuggestGasPrice
      = gops.length := by
  rcases hs : b.SignTx (LegacyTx.mk n (b.HexToAddress to_) 0 data 500000 p)
    with ⟨stx, _ | e⟩
  · rw [MultiTransfer_sent b to_ data gasprice w n st1 p st2 gops stx _ _ hn hg hs rfl]
    simp [World.since, List.countP_cons, Op.isSuggestGasPrice,
      GasResolved_queries b gasprice st1 p st2 gops hg]
  · rw [MultiTransfer_sign_err b to_ data gasprice w n st1 p st2 gops stx e hn hg hs]
    simp [World.since, List.countP_cons, Op.isSuggestGasPrice,
      GasResolved_queries b gasprice st1 p st2 gops hg]

theorem Transfer_every_gas (b : TxBuild σ) (to_ : String) (value gasprice : Int)
    (w : World σ) :
    ∀ t ∈ signedPayloads ((b.Transfer to_ value gasprice w).2.since w), t.Gas = 50000 := by
  intro t ht
  exact (Transfer_every_payload b to_ value gasprice w t ht).2.2.2

theorem MultiTransfer_every_gas (b : TxBuild σ) (to_ : String) (data : List Nat)
    (gasprice : Int) (w : World σ) :
    ∀ t ∈ signedPayloads ((b.MultiTransfer to_ data gasprice w).2.since w),
      t.Gas = 500000 := by
  intro t ht
  exact (MultiTransfer_every_payload b to_ data gasprice w t ht).2.2.2

/-- C7. Gas resolution in `Transfer` and `MultiTransfer`: once the pending-nonce query has
returned `n`, a caller-supplied gas price of zero makes the builder query the suggested
price exactly once and use it, and any other value is used unchanged with no query; the
transaction handed to the signer carries nonce `n`, gas limit 50000 for `Transfer` and
500000 for `MultiTransfer`, whatever the inputs. -/
theorem gas_resolution (b : TxBuild σ) (to_ : String) (value : Int) (data : List Nat)
    (gasprice : Int) (w : World σ) :
    (∀ (n : Nat) (st1 : σ) (p : Int) (st2 : σ),
      b.client.PendingNonceAt b.fromAddress w.st = ((n, none), st1) →
      gasprice = 0 →
      b.client.SuggestGasPrice st1 = ((p, none), st2) →
        signedPayloads ((b.Transfer to_ value gasprice w).2.since w)
          = [{ Nonce := n, To := b.HexToAddress to_, Value := value, Data := [],
               Gas := 50000, GasPrice := p }] ∧
        ((b.Transfer to_ value gasprice w).2.since w).countP Op.isSuggestGasPrice = 1 ∧
        signedPayloads ((b.MultiTransfer to_ data gasprice w).2.since w)
          = [{ Nonce := n, To := b.HexToAddress to_, Value := 0, Data := data,
               Gas := 500000, GasPrice := p }] ∧
        ((b.MultiTransfer to_ data gasprice w).2.since w).countP Op.isSuggestGasPrice = 1) ∧
    (∀ (n : Nat) (st1 : σ),
      b.client.PendingNonceAt b.fromAddress w.st = ((n, none), st1) →
      gasprice ≠ 0 →
        signedPayloads ((b.Transfer to_ value gasprice w).2.since w)
          = [{ Nonce := n, To := b.HexToAddress to_, Value := value, Data := [],
               Gas := 50000, GasPrice := gasprice }] ∧
        ((b.Transfer to_ value gasprice w).2.since w).countP Op.isSuggestGasPrice = 0 ∧
        signedPayloads ((b.MultiTransfer to_ data gasprice w).2.since w)
          = [{ Nonce := n, To := b.HexToAddress to_, Value := 0, Data := data,
               Gas := 500000, GasPrice := gasprice }] ∧
        ((b.MultiTransfer to_ data gasprice w).2.since w).countP Op.isSuggestGasPrice = 0) ∧
    (∀ t ∈ signedPayloads ((b.Transfer to_ value gasprice w).2.since w), t.Gas = 50000) ∧
    (∀ t ∈ signedPayloads ((b.MultiTransfer to_ data gasprice w).2.since w),
      t.Gas = 500000) := by
  refine ⟨?_, ?_, Transfer_every_gas b to_ value gasprice w,
    MultiTransfer_every_gas b to_ data gasprice w⟩
  · intro n st1 p st2 hn h0 hg
    have hG : GasResolved b gasprice st1 p st2 [Op.SuggestGasPrice] := Or.inr ⟨h0, hg, rfl⟩
    exact ⟨Transfer_payloads b to_ value gasprice w n st1 p st2 _ hn hG,
      Transfer_gas_queries b to_ value gasprice w n st1 p st2 _ hn hG,
      MultiTransfer_payloads b to_ data gasprice w n st1 p st2 _ hn hG,
      MultiTransfer_gas_queries b to_ data gasprice w n st1 p st2 _ hn hG⟩
  · intro n st1 hn h0
    have hG : GasResolved b gasprice st1 gasprice st1 [] := Or.inl ⟨h0, rfl, rfl, rfl⟩
    exact ⟨Transfer_payloads b to_ value gasprice w n st1 gasprice st1 _ hn hG,
      Transfer_gas_queries b to_ value gasprice w n st1 gasprice st1 _ hn hG,
      MultiTransfer_payloads b to_ data gasprice w n st1 gasprice st1 _ hn hG,
      MultiTransfer_gas_queries b to_ data gasprice w n st1 gasprice st1 _ hn hG⟩

/-- C7, worked instance: one ether, gas price override zero, on a ledger whose pending
nonce is 0 and whose suggested price is 7; and the override 9 on the same ledger. -/
theorem gas_resolution_witness :
    (signedPayloads
        (((fixture.build none none none none).Transfer "0xA" (1 * 10 ^ 18) 0 fixture.w0).2.since
          fixture.w0)
      = [{ Nonce := 0, To := 3, Value := 1 * 10 ^ 18, Data := [], Gas := 50000,
           GasPrice := 7 }] ∧
     ((((fixture.build none none none none).Transfer "0xA" (1 * 10 ^ 18) 0 fixture.w0).2.since
          fixture.w0).countP Op.isSuggestGasPrice = 1) ∧
     signedPayloads
        (((fixture.build none none none none).MultiTransfer "0xA" [1] 0 fixture.w0).2.since
          fixture.w0)
      = [{ Nonce := 0, To := 3, Value := 0, Data := [1], Gas := 500000, GasPrice := 7 }] ∧
     ((((fixture.build none none none none).MultiTransfer "0xA" [1] 0 fixture.w0).2.since
          fixture.w0).countP Op.isSuggestGasPrice = 1)) ∧
    (signedPayloads
        (((fixture.build none none none none).Transfer "0xA" (1 * 10 ^ 18) 9 fixture.w0).2.since
          fixture.w0)
      = [{ Nonce := 0, To := 3, Value := 1 * 10 ^ 18, Data := [], Gas := 50000,
           GasPrice := 9 }] ∧
     ((((fixture.build none none none none).Transfer "0xA" (1 * 10 ^ 18) 9 fixture.w0).2.since
          fixture.w0).countP Op.isSuggestGasPrice = 0) ∧
     signedPayloads
        (((fixture.build none none none none).MultiTransfer "0xA" [1] 9 fixture.w0).2.since
          fixture.w0)
      = [{ Nonce := 0, To := 3, Value := 0, Data := [1], Gas := 500000, GasPrice := 9 }] ∧
     ((((fixture.build none none none none).MultiTransfer "0xA" [1] 9 fixture.w0).2.since
          fixture.w0).countP Op.isSuggestGasPrice = 0)) :=
  ⟨(gas_resolution (fixture.build none none none none) "0xA" (1 * 10 ^ 18) [1] 0
      fixture.w0).1 0 0 7 0 rfl rfl rfl,
   (gas_resolution (fixture.build none none none none) "0xA" (1 * 10 ^ 18) [1] 9
      fixture.w0).2.1 0 0 rfl (by decide)⟩

/-- C9. A failure at any stage ends a builder call with that stage's error and nothing
after it runs: a failed pending-nonce query is the only call made; a failed gas-price
query is followed by no signing and no broadcast; a failed signing is followed by no
broadcast; the result of the broadcast is returned as it is.  Every call to `Transfer` or
`MultiTransfer` queries the nonce, queries the gas price, signs and broadcasts at most
once each. -/
theorem builder_failure_aborts (b : TxBuild σ) (to_ : String) (value : Int) (data : List Nat)
    (gasprice : Int) (w : World σ) :
    (∀ (n : Nat) (e : Err) (st1 : σ),
      b.client.PendingNonceAt b.fromAddress w.st = ((n, some e), st1) →
        (b.Transfer to_ value gasprice w).1 = (0, some e) ∧
        (b.Transfer to_ value gasprice w).2.since w = [Op.PendingNonceAt b.fromAddress] ∧
        (b.MultiTransfer to_ data gasprice w).1 = (0, some e) ∧
        (b.MultiTransfer to_ data gasprice w).2.since w = [Op.PendingNonceAt b.fromAddress]) ∧
    (∀ (n : Nat) (st1 : σ) (p : Int) (e : Err) (st2 : σ),
      b.client.PendingNonceAt b.fromAddress w.st = ((n, none), st1) →
      gasprice = 0 →
      b.client.SuggestGasPrice st1 = ((p, some e), st2) →
        (b.Transfer to_ value gasprice w).1 = (0, some e) ∧
        (b.Transfer to_ value gasprice w).2.since w
          = [Op.PendingNonceAt b.fromAddress, Op.SuggestGasPrice] ∧
        (b.MultiTransfer to_ data gasprice w).1 = (0, some e) ∧
        (b.MultiTransfer to_ data gasprice w).2.since w
          = [Op.PendingNonceAt b.fromAddress, Op.SuggestGasPrice]) ∧
    (∀ (n : Nat) (st1 : σ) (p : Int) (st2 : σ) (gops : List Op) (stx : SignedTx) (e : Err),
      b.client.PendingNonceAt b.fromAddress w.st = ((n, none), st1) →
      GasResolved b gasprice st1 p st2 gops →
        (b.SignTx { Nonce := n, To := b.HexToAddress to_, Value := value, Data := [],
                    Gas := 50000, GasPrice := p } = (stx, some e) →
          (b.Transfer to_ value gasprice w).1 = (0, some e) ∧
          (b.Transfer to_ value gasprice w).2.since w
            = [Op.PendingNonceAt b.fromAddress] ++ gops ++
                [Op.SignTx { Nonce := n, To := b.HexToAddress to_, Value := value,
                             Data := [], Gas := 50000, GasPrice := p }]) ∧
        (b.SignTx { Nonce := n, To := b.HexToAddress to_, Value := 0, Data := data,
                    Gas := 500000, GasPrice := p } = (stx, some e) →
          (b.MultiTransfer to_ data gasprice w).1 = (0, some e) ∧
          (b.MultiTransfer to_ data gasprice w).2.since w
            = [Op.PendingNonceAt b.fromAddress] ++ gops ++
                [Op.SignTx { Nonce := n, To := b.HexToAddress to_, Value := 0,
                             Data := data, Gas := 500000, GasPrice := p }])) ∧
    (∀ (n : Nat) (st1 : σ) (p : Int) (st2 : σ) (gops : List Op) (stx : SignedTx)
        (err : Option Err) (st3 : σ),
      b.client.PendingNonceAt b.fromAddress w.st = ((n, none), st1) →
      GasResolved b gasprice st1 p st2 gops →
      b.client.SendTransaction stx st2 = (err, st3) →
        (b.SignTx { Nonce := n, To := b.HexToAddress to_, Value := value, Data := [],
                    Gas := 50000, GasPrice := p } = (stx, none) →
          (b.Transfer to_ value gasprice w).1 = (b.TxHash stx, err) ∧
          (b.Transfer to_ value gasprice w).2.since w
            = [Op.PendingNonceAt b.fromAddress] ++ gops ++
                [Op.SignTx { Nonce := n, To := b.HexToAddress to_, Value := value,
                             Data := [], Gas := 50000, GasPrice := p },
                 Op.SendTransaction stx]) ∧
        (b.SignTx { Nonce := n, To := b.HexToAddress to_, Value := 0, Data := data,
                    Gas := 500000, GasPrice := p } = (stx, none) →
          (b.MultiTransfer to_ data gasprice w).1 = (b.TxHash stx, err) ∧
          (b.MultiTransfer to_ data gasprice w).2.since w
            = [Op.PendingNonceAt b.fromAddress] ++ gops ++
                [Op.SignTx { Nonce := n, To := b.HexToAddress to_, Value := 0,
                             Data := data, Gas := 500000, GasPrice := p },
                 Op.SendTransaction stx])) ∧
    (((b.Transfer to_ value gasprice w).2.since w).countP Op.isPendingNonceAt ≤ 1 ∧
     ((b.Transfer to_ value gasprice w).2.since w).countP Op.isSuggestGasPrice ≤ 1 ∧
     ((b.Transfer to_ value gasprice w).2.since w).countP Op.isSignTx ≤ 1 ∧
     ((b.Transfer to_ value gasprice w).2.since w).countP Op.isSendTransaction ≤ 1) ∧
    (((b.MultiTransfer to_ data gasprice w).2.since w).countP Op.isPendingNonceAt ≤ 1 ∧
     ((b.MultiTransfer to_ data gasprice w).2.since w).countP Op.isSuggestGasPrice ≤ 1 ∧
     ((b.MultiTransfer to_ data gasprice w).2.since w).countP Op.isSignTx ≤ 1 ∧
     ((b.MultiTransfer to_ data gasprice w).2.since w).countP Op.isSendTransaction ≤ 1) := by
  refine ⟨?_, ?_, ?_, ?_, ?_, ?_⟩
  · intro n e st1 hn
    rw [Transfer_nonce_err b to_ value gasprice w n e st1 hn,
      MultiTransfer_nonce_err b to_ data gasprice w n e st1 hn]
    simp [World.since]
  · intro n st1 p e st2 hn h0 hg
    subst h0
    rw [Transfer_gas_err b to_ value w n st1 p e st2 hn hg,
      MultiTransfer_gas_err b to_ data w n st1 p e st2 hn hg]
    simp [World.since]
  · intro n st1 p st2 gops stx e hn hG
    constructor
    · intro hs
      rw [Transfer_sign_err b to_ value gasprice w n st1 p st2 gops stx e hn hG hs]
      simp [World.since]
    · intro hs
      rw [MultiTransfer_sign_err b to_ data gasprice w n st1 p st2 gops stx e hn hG hs]
      simp [World.since]
  · intro n st1 p st2 gops stx err st3 hn hG hb
    constructor
    · intro hs
      rw [Transfer_sent b to_ value gasprice w n st1 p st2 gops stx err st3 hn hG hs hb]
      simp [World.since]
    · intro hs
      rw [MultiTransfer_sent b to_ data gasprice w n st1 p st2 gops stx err st3 hn hG hs hb]
      simp [World.since]
  · obtain ⟨l, hl, hsh⟩ := Transfer_shape b to_ value gasprice w
    rw [since_of_ops _ _ l hl]
    obtain ⟨c1, c2, c3, c4, -⟩ := CallShape_counts l _ hsh
    exact ⟨c1, c2, c3, c4⟩
  · obtain ⟨l, hl, hsh⟩ := MultiTransfer_shape b to_ data gasprice w
    rw [since_of_ops _ _ l hl]
    obtain ⟨c1, c2, c3, c4, -⟩ := CallShape_counts l _ hsh
    exact ⟨c1, c2, c3, c4⟩

/-- C9, worked instances: the same call on four ledgers, failing at the nonce query, at
the gas-price query, at signing and at the broadcast. -/
theorem builder_failure_aborts_witness :
    (((fixture.build (some "nonce down") none none none).Transfer "0xA" 5 0 fixture.w0).1
        = (0, some "nonce down") ∧
     ((fixture.build (some "nonce down") none none none).Transfer "0xA" 5 0 fixture.w0).2.since
        fixture.w0 = [Op.PendingNonceAt 5] ∧
     ((fixture.build (some "nonce down") none none none).MultiTransfer "0xA" [1] 0
        fixture.w0).1 = (0, some "nonce down") ∧
     ((fixture.build (some "nonce down") none none none).MultiTransfer "0xA" [1] 0
        fixture.w0).2.since fixture.w0 = [Op.PendingNonceAt 5]) ∧
    (((fixture.build none (some "gas down") none none).Transfer "0xA" 5 0 fixture.w0).1
        = (0, some "gas down") ∧
     ((fixture.build none (some "gas down") none none).Transfer "0xA" 5 0 fixture.w0).2.since
        fixture.w0 = [Op.PendingNonceAt 5, Op.SuggestGasPrice] ∧
     ((fixture.build none (some "gas down") none none).MultiTransfer "0xA" [1] 0
        fixture.w0).1 = (0, some "gas down") ∧
     ((fixture.build none (some "gas down") none none).MultiTransfer "0xA" [1] 0
        fixture.w0).2.since fixture.w0 = [Op.PendingNonceAt 5, Op.SuggestGasPrice]) ∧
    (((fixture.build none none (some "bad key") none).Transfer "0xA" 5 0 fixture.w0).1
        = (0, some "bad key") ∧
     ((fixture.build none none (some "bad key") none).Transfer "0xA" 5 0 fixture.w0).2.since
        fixture.w0
        = [Op.PendingNonceAt 5] ++ [Op.SuggestGasPrice] ++
            [Op.SignTx { Nonce := 0, To := 3, Value := 5, Data := [], Gas := 50000,
                         GasPrice := 7 }]) ∧
    (((fixture.build none none none (some "rejected")).MultiTransfer "0xA" [1] 9
        fixture.w0).1 = (100, some "rejected") ∧
     ((fixture.build none none none (some "rejected")).MultiTransfer "0xA" [1] 9
        fixture.w0).2.since fixture.w0
        = [Op.PendingNonceAt 5] ++ [] ++
            [Op.SignTx { Nonce := 0, To := 3, Value := 0, Data := [1], Gas := 500000,
                         GasPrice := 9 },
             Op.SendTransaction
               { tx := { Nonce := 0, To := 3, Value := 0, Data := [1], Gas := 500000,
                         GasPrice := 9 },
                 sig := 1 }]) :=
  ⟨(builder_failure_aborts (fixture.build (some "nonce down") none none none) "0xA" 5 [1] 0
      fixture.w0).1 0 "nonce down" 0 rfl,
   (builder_failure_aborts (fixture.build none (some "gas down") none none) "0xA" 5 [1] 0
      fixture.w0).2.1 0 0 0 "gas down" 0 rfl rfl rfl,
   ((builder_failure_aborts (fixture.build none none (some "bad key") none) "0xA" 5 [1] 0
      fixture.w0).2.2.1 0 0 7 0 [Op.SuggestGasPrice]
        { tx := { Nonce := 0, To := 3, Value := 5, Data := [], Gas := 50000, GasPrice := 7 },
          sig := 1 }
        "bad key" rfl (Or.inr ⟨rfl, rfl, rfl⟩)).1 rfl,
   ((builder_failure_aborts (fixture.build none none none (some "rejected")) "0xA" 5 [1] 9
      fixture.w0).2.2.2.1 0 0 9 0 []
        { tx := { Nonce := 0, To := 3, Value := 0, Data := [1], Gas := 500000,
                  GasPrice := 9 },
          sig := 1 }
        (some "rejected") 0 rfl (Or.inl ⟨by decide, rfl, rfl, rfl⟩) rfl).2 rfl⟩

end chain

end Faucet

/-! ## The claim handler and the drain worker, path by path -/

namespace Faucet

namespace server

open chain

variable {W : Type}

theorem String_length_eq_zero (a : String) : a.length = 0 ↔ a = "" := by
  constructor
  · intro h
    cases a with
    | mk d =>
      have hd : d = [] := List.length_eq_zero.mp h
      subst hd
      rfl
  · intro h
    subst h
    rfl

theorem handleClaim_options (ext : Ext) (r : Request) (s : Server W) (h : r.Method = "OPTIONS") :
    handleClaim ext r s = ({ header := corsHeader, status := 200, body := Body.empty }, s) := by
  simp [handleClaim, h]

theorem handleClaim_other (ext : Ext) (r : Request) (s : Server W)
    (h1 : r.Method ≠ "OPTIONS") (h2 : r.Method ≠ "POST") :
    handleClaim ext r s
      = ({ header := corsHeader, status := 404, body := Body.text "404 page not found\n" }, s) := by
  simp [handleClaim, h1, h2]

theorem handleClaim_queued (ext : Ext) (r : Request) (s : Server W) (hP : r.Method = "POST")
    (hq : s.queue.len ≠ 0) :
    (handleClaim ext r s).2.world = s.world ∧
    (handleClaim ext r s).2.mutex = s.mutex ∧
    (handleClaim ext r s).2.trace = s.trace ∧
    (handleClaim ext r s).2.cfg = s.cfg ∧
    (s.queue.len < s.queue.cap →
      (handleClaim ext r s).1
        = renderJSON corsHeader { Message := "Added " ++ r.address ++ " to the queue" } 200 ∧
      (handleClaim ext r s).2.queue = { s.queue with buf := s.queue.buf ++ [r.address] }) ∧
    (¬ s.queue.len < s.queue.cap →
      (handleClaim ext r s).1
        = renderJSON corsHeader
            { Message := "Faucet queue is too long, please try again later" } 503 ∧
      (handleClaim ext r s).2.queue = s.queue) := by
  have hne : ("POST" : String) ≠ "OPTIONS" := by decide
  by_cases hc : s.queue.len < s.queue.cap
  · have hc2 : s.queue.buf.length < s.queue.cap := hc
    simp [handleClaim, hP, hne, hq, hc, hc2, Chan.trySend, Server.log]
  · have hc2 : ¬ s.queue.buf.length < s.queue.cap := hc
    simp [handleClaim, hP, hne, hq, hc, hc2, Chan.trySend, Server.log]

theorem handleClaim_locked (ext : Ext) (r : Request) (s : Server W) (hP : r.Method = "POST")
    (hq : s.queue.len = 0) (hl : s.mutex.locked = true) :
    (handleClaim ext r s).2.world = s.world ∧
    (handleClaim ext r s).2.mutex = s.mutex ∧
    (handleClaim ext r s).2.trace = s.trace ++ [Event.TryLock false] ∧
    (handleClaim ext r s).2.cfg = s.cfg ∧
    (s.queue.len < s.queue.cap →
      (handleClaim ext r s).1
        = renderJSON corsHeader { Message := "Added " ++ r.address ++ " to the queue" } 200 ∧
      (handleClaim ext r s).2.queue = { s.queue with buf := s.queue.buf ++ [r.address] }) ∧
    (¬ s.queue.len < s.queue.cap →
      (handleClaim ext r s).1
        = renderJSON corsHeader
            { Message := "Faucet queue is too long, please try again later" } 503 ∧
      (handleClaim ext r s).2.queue = s.queue) := by
  have hne : ("POST" : String) ≠ "OPTIONS" := by decide
  by_cases hc : s.queue.len < s.queue.cap
  · have hc2 : s.queue.buf.length < s.queue.cap := hc
    have hc3 : 0 < s.queue.cap := by rw [hq] at hc; exact hc
    simp [handleClaim, hP, hne, hq, hl, hc2, hc3, Chan.trySend, Server.log, Server.TryLock,
      Mutex.TryLock]
  · have hc2 : ¬ s.queue.buf.length < s.queue.cap := hc
    have hc3 : s.queue.cap = 0 := by rw [hq] at hc; omega
    simp [handleClaim, hP, hne, hq, hl, hc2, hc3, Chan.trySend, Server.log, Server.TryLock,
      Mutex.TryLock]

theorem handleClaim_plain (ext : Ext) (r : Request) (s : Server W) (hP : r.Method = "POST")
    (hq : s.queue.len = 0) (hl : s.mutex.locked = false) (hc : s.cfg.contractAddress = "") :
    (handleClaim ext r s).1
      = (match (s.builder.Transfer r.address (ext.EtherToWei s.cfg.ethAmount) s.cfg.gasPrice
                  s.world).1.2 with
         | some e => renderJSON corsHeader { Message := e } 500
         | none =>
           renderJSON corsHeader
             { Message := "TransactionHash:" ++ ext.HashString
                 (s.builder.Transfer r.address (ext.EtherToWei s.cfg.ethAmount) s.cfg.gasPrice
                    s.world).1.1 } 200) ∧
    (handleClaim ext r s).2.world
      = (s.builder.Transfer r.address (ext.EtherToWei s.cfg.ethAmount) s.cfg.gasPrice s.world).2 ∧
    (handleClaim ext r s).2.mutex = { locked := false } ∧
    (handleClaim ext r s).2.queue = s.queue ∧
    (handleClaim ext r s).2.cfg = s.cfg ∧
    (handleClaim ext r s).2.trace
      = s.trace ++ [Event.TryLock true,
          Event.Transfer r.address (ext.EtherToWei s.cfg.ethAmount) s.cfg.gasPrice,
          Event.Unlock] := by
  have hne : ("POST" : String) ≠ "OPTIONS" := by decide
  simp only [handleClaim, hP, hne, hq, hl, hc, Server.TryLock, Mutex.TryLock, Server.Transfer,
    Server.Unlock, Mutex.Unlock, Server.log]
  simp only [ne_eq, not_true_eq_false, if_false, Bool.false_eq_true, Bool.not_true,
    String.length, List.length_nil, if_true]
  split <;> simp_all

theorem handleClaim_contract (ext : Ext) (r : Request) (s : Server W) (hP : r.Method = "POST")
    (hq : s.queue.len = 0) (hl : s.mutex.locked = false) (hc : s.cfg.contractAddress ≠ "") :
    (handleClaim ext r s).1
      = renderJSON corsHeader
          { Message := "TransactionHash:" ++ ext.HashString
              (s.builder.MultiTransfer s.cfg.contractAddress
                (ext.Pack (ext.JSON ABI).1 "multiTransfer" (ext.HexToAddress r.address)
                  s.cfg.ethAmount s.cfg.usdtAmount s.cfg.usdcAmount).1
                s.cfg.gasPrice s.world).1.1 } 200 ∧
    (handleClaim ext r s).2.world
      = (s.builder.MultiTransfer s.cfg.contractAddress
          (ext.Pack (ext.JSON ABI).1 "multiTransfer" (ext.HexToAddress r.address)
            s.cfg.ethAmount s.cfg.usdtAmount s.cfg.usdcAmount).1
          s.cfg.gasPrice s.world).2 ∧
    (handleClaim ext r s).2.mutex = { locked := false } ∧
    (handleClaim ext r s).2.queue = s.queue ∧
    (handleClaim ext r s).2.cfg = s.cfg ∧
    (handleClaim ext r s).2.trace
      = s.trace ++ [Event.TryLock true,
          Event.MultiTransfer s.cfg.contractAddress
            (ext.Pack (ext.JSON ABI).1 "multiTransfer" (ext.HexToAddress r.address)
              s.cfg.ethAmount s.cfg.usdtAmount s.cfg.usdcAmount).1
            s.cfg.gasPrice,
          Event.Unlock] := by
  have hne : ("POST" : String) ≠ "OPTIONS" := by decide
  have hlen : ¬ s.cfg.contractAddress.length = 0 := by
    intro h
    exact hc ((String_length_eq_zero _).mp h)
  have e1 : ∀ (t : Server W) (e : Option Err) (m : String), (t.logIfErr e m).cfg = t.cfg := by
    intro t e m; cases e <;> rfl
  have e2 : ∀ (t : Server W) (e : Option Err) (m : String), (t.logIfErr e m).world = t.world := by
    intro t e m; cases e <;> rfl
  have e3 : ∀ (t : Server W) (e : Option Err) (m : String), (t.logIfErr e m).trace = t.trace := by
    intro t e m; cases e <;> rfl
  have e4 : ∀ (t : Server W) (e : Option Err) (m : String), (t.logIfErr e m).queue = t.queue := by
    intro t e m; cases e <;> rfl
  have e5 : ∀ (t : Server W) (e : Option Err) (m : String),
      (t.logIfErr e m).builder = t.builder := by
    intro t e m; cases e <;> rfl
  simp only [handleClaim, hP, hne, hq, hl, hlen, Server.TryLock, Mutex.TryLock,
    Server.MultiTransfer, Server.Unlock, Mutex.Unlock, Server.log, e1, e2, e3, e4, e5]
  simp [hlen]

theorem consumeBody_cons (ext : Ext) (s : Server W) (a : String) (rest : List String)
    (hb : s.queue.buf = a :: rest) :
    (consumeBody ext s).queue = { s.queue with buf := rest } ∧
    (consumeBody ext s).trace
      = s.trace ++ [Event.Transfer a (ext.EtherToWei s.cfg.ethAmount) s.cfg.gasPrice] ∧
    (consumeBody ext s).world
      = (s.builder.Transfer a (ext.EtherToWei s.cfg.ethAmount) s.cfg.gasPrice s.world).2 ∧
    (consumeBody ext s).mutex = s.mutex ∧
    (consumeBody ext s).cfg = s.cfg ∧
    (consumeBody ext s).builder = s.builder := by
  simp only [consumeBody, Chan.recv, hb, Server.Transfer, Server.log]
  split <;> simp

theorem consumeLoop_run (ext : Ext) (buf : List String) :
    ∀ s : Server W, s.queue.buf = buf →
      (consumeLoop ext s).queue = { s.queue with buf := [] } ∧
      (consumeLoop ext s).trace
        = s.trace ++ buf.map
            (fun a => Event.Transfer a (ext.EtherToWei s.cfg.ethAmount) s.cfg.gasPrice) ∧
      (consumeLoop ext s).world
        = buf.foldl
            (fun w a =>
              (s.builder.Transfer a (ext.EtherToWei s.cfg.ethAmount) s.cfg.gasPrice w).2)
            s.world ∧
      (consumeLoop ext s).mutex = s.mutex ∧
      (consumeLoop ext s).cfg = s.cfg ∧
      (consumeLoop ext s).builder = s.builder := by
  induction buf with
  | nil =>
    intro s hb
    have h0 : s.queue.len = 0 := by simp [Chan.len, hb]
    have hL : consumeLoop ext s = s := by
      rw [consumeLoop]
      simp [h0]
    rw [hL]
    refine ⟨?_, by simp, by simp, rfl, rfl, rfl⟩
    cases hq : s.queue with
    | mk b c =>
      rw [hq] at hb
      simp only at hb
      subst hb
      rfl
  | cons a rest ih =>
    intro s hb
    have h0 : s.queue.len ≠ 0 := by simp [Chan.len, hb]
    have hL : consumeLoop ext s = consumeLoop ext (consumeBody ext s) := by
      rw [consumeLoop]
      simp [h0]
    rw [hL]
    obtain ⟨b1, b2, b3, b4, b5, b6⟩ := consumeBody_cons ext s a rest hb
    have hb' : (consumeBody ext s).queue.buf = rest := by rw [b1]
    obtain ⟨i1, i2, i3, i4, i5, i6⟩ := ih (consumeBody ext s) hb'
    refine ⟨?_, ?_, ?_, ?_, ?_, ?_⟩
    · rw [i1, b1]
    · rw [i2, b2, b5]; simp
    · rw [i3, b3, b5, b6]; simp
    · rw [i4, b4]
    · rw [i5, b5]
    · rw [i6, b6]

theorem consumeQueue_run (ext : Ext) (s : Server W) (hl : s.mutex.locked = false)
    (hne : s.queue.buf ≠ []) :
    ∃ s1 : Server W, consumeQueue ext s = some s1 ∧
      s1.queue = { s.queue with buf := [] } ∧
      s1.trace
        = s.trace ++ [Event.Lock] ++
            s.queue.buf.map
              (fun a => Event.Transfer a (ext.EtherToWei s.cfg.ethAmount) s.cfg.gasPrice) ++
            [Event.Unlock] ∧
      s1.world
        = s.queue.buf.foldl
            (fun w a =>
              (s.builder.Transfer a (ext.EtherToWei s.cfg.ethAmount) s.cfg.gasPrice w).2)
            s.world ∧
      s1.mutex = { locked := false } ∧
      s1.cfg = s.cfg := by
  have h0 : ¬ s.queue.len = 0 := by
    intro h
    exact hne (List.length_eq_zero.mp h)
  obtain ⟨i1, i2, i3, -, i5, -⟩ :=
    consumeLoop_run ext s.queue.buf
      { s with mutex := { locked := true }, trace := s.trace ++ [Event.Lock] } rfl
  refine ⟨(consumeLoop ext
      { s with mutex := { locked := true }, trace := s.trace ++ [Event.Lock] }).Unlock,
    ?_, ?_, ?_, ?_, ?_, ?_⟩
  · simp [consumeQueue, h0, Server.Lock, Mutex.Lock, hl]
  · simp only [Server.Unlock]; rw [i1]
  · simp only [Server.Unlock]; rw [i2]
  · simp only [Server.Unlock]; rw [i3]
  · simp [Server.Unlock, Mutex.Unlock]
  · simp only [Server.Unlock]; rw [i5]

theorem consumeQueue_empty (ext : Ext) (s : Server W) (he : s.queue.buf = []) :
    consumeQueue ext s = some s := by
  simp [consumeQueue, Chan.len, he]

theorem Server.since_of_trace (s1 s : Server W) (l : List Event)
    (h : s1.trace = s.trace ++ l) : s1.since s = l := by
  simp [Server.since, h]

theorem NewServer_state (maxChanCap : Nat) (builder : TxBuilder W) (cfg : Config) (world : W)
    (s : Server W) (h : NewServer maxChanCap builder cfg world = some s) :
    (s.queue.cap : Int) = cfg.queueCap ∧ s.queue.cap ≤ maxChanCap ∧ s.cfg = cfg ∧
    s.queue.buf = [] ∧ s.mutex.locked = false ∧ s.trace = [] := by
  unfold NewServer at h
  by_cases hc : cfg.queueCap < 0 ∨ (maxChanCap : Int) < cfg.queueCap
  · simp [hc] at h
  · simp only [hc, if_false, Option.some.injEq] at h
    subst h
    refine ⟨?_, ?_, rfl, rfl, rfl, rfl⟩
    · simp only
      omega
    · simp only
      omega

end server

end Faucet

/-! ## Claims about the claim handler and the drain worker -/

namespace Faucet

namespace server

open chain

variable {W : Type} {σ : Type}

/-- C2. A POST that finds the queue non-empty or the lock held calls neither `Transfer`
nor `MultiTransfer` and leaves the ledger untouched; below the configured capacity it
appends the address at the tail and answers 200, at capacity it answers 503 and leaves
the queue as it was; either way the queue is no longer than the configured capacity. -/
theorem busy_claim_queues_or_rejects (ext : Ext) (r : Request) (s : Server W)
    (hP : r.Method = "POST") (hbusy : s.queue.len ≠ 0 ∨ s.mutex.locked = true)
    (hcap : (s.queue.cap : Int) = s.cfg.queueCap) (hinv : s.queue.len ≤ s.queue.cap) :
    (∀ e ∈ (handleClaim ext r s).2.since s, e.isBuilderCall = false) ∧
    (handleClaim ext r s).2.world = s.world ∧
    (((s.queue.len : Int) < s.cfg.queueCap ∧
        (handleClaim ext r s).1
          = renderJSON corsHeader { Message := "Added " ++ r.address ++ " to the queue" } 200 ∧
        (handleClaim ext r s).2.queue.buf = s.queue.buf ++ [r.address]) ∨
     ((s.queue.len : Int) = s.cfg.queueCap ∧
        (handleClaim ext r s).1
          = renderJSON corsHeader
              { Message := "Faucet queue is too long, please try again later" } 503 ∧
        (handleClaim ext r s).2.queue.buf = s.queue.buf)) ∧
    ((handleClaim ext r s).2.queue.len : Int) ≤ s.cfg.queueCap ∧
    (handleClaim ext r s).2.queue.cap = s.queue.cap ∧
    (handleClaim ext r s).2.cfg = s.cfg := by
  have key :
      (handleClaim ext r s).2.world = s.world ∧
      (handleClaim ext r s).2.mutex = s.mutex ∧
      (∃ l, (handleClaim ext r s).2.trace = s.trace ++ l ∧ ∀ e ∈ l, e.isBuilderCall = false) ∧
      (handleClaim ext r s).2.cfg = s.cfg ∧
      (s.queue.len < s.queue.cap →
        (handleClaim ext r s).1
          = renderJSON corsHeader { Message := "Added " ++ r.address ++ " to the queue" } 200 ∧
        (handleClaim ext r s).2.queue = { s.queue with buf := s.queue.buf ++ [r.address] }) ∧
      (¬ s.queue.len < s.queue.cap →
        (handleClaim ext r s).1
          = renderJSON corsHeader
              { Message := "Faucet queue is too long, please try again later" } 503 ∧
        (handleClaim ext r s).2.queue = s.queue) := by
    by_cases hq : s.queue.len = 0
    · have hl : s.mutex.locked = true := by
        rcases hbusy with h | h
        · exact absurd hq h
        · exact h
      obtain ⟨h1, h2, h3, h4, h5, h6⟩ := handleClaim_locked ext r s hP hq hl
      exact ⟨h1, h2, ⟨[Event.TryLock false], h3, by simp [Event.isBuilderCall]⟩, h4, h5, h6⟩
    · obtain ⟨h1, h2, h3, h4, h5, h6⟩ := handleClaim_queued ext r s hP hq
      exact ⟨h1, h2, ⟨[], by simp [h3], by simp⟩, h4, h5, h6⟩
  obtain ⟨k1, -, ⟨l, k3, k3'⟩, k4, k5, k6⟩ := key
  refine ⟨?_, k1, ?_, ?_, ?_, k4⟩
  · rw [Server.since_of_trace _ _ l k3]
    exact k3'
  · by_cases hc : s.queue.len < s.queue.cap
    · left
      obtain ⟨a1, a2⟩ := k5 hc
      refine ⟨?_, a1, by rw [a2]⟩
      rw [← hcap]
      exact_mod_cast hc
    · right
      obtain ⟨a1, a2⟩ := k6 hc
      refine ⟨?_, a1, by rw [a2]⟩
      rw [← hcap]
      have : s.queue.len = s.queue.cap := by omega
      exact_mod_cast this
  · rw [← hcap]
    by_cases hc : s.queue.len < s.queue.cap
    · obtain ⟨-, a2⟩ := k5 hc
      rw [a2]
      have : s.queue.buf.length < s.queue.cap := hc
      simp only [Chan.len, List.length_append, List.length_singleton]
      exact_mod_cast this
    · obtain ⟨-, a2⟩ := k6 hc
      rw [a2]
      exact_mod_cast hinv
  · by_cases hc : s.queue.len < s.queue.cap
    · obtain ⟨-, a2⟩ := k5 hc
      rw [a2]
    · obtain ⟨-, a2⟩ := k6 hc
      rw [a2]

/-- C2, worked instance: capacity 2, lock held, claims for `A`, `B`, `C` in this order
are answered 200, 200, 503 and leave the queue `[A, B]`, with no call to the ledger. -/
theorem busy_claim_queues_or_rejects_witness :
    ((handleClaim (fixture.ext none) { Method := "POST", address := "A" }
        (fixture.srv (fixture.build none none none none) fixture.cfgPlain true [])).2.world
      = fixture.w0 ∧
     (((handleClaim (fixture.ext none) { Method := "POST", address := "A" }
        (fixture.srv (fixture.build none none none none) fixture.cfgPlain true [])).2.queue.len
          : Int) ≤ 2)) ∧
    (handleClaim (fixture.ext none) { Method := "POST", address := "A" }
        (fixture.srv (fixture.build none none none none) fixture.cfgPlain true [])).1.status
      = 200 ∧
    (handleClaim (fixture.ext none) { Method := "POST", address := "B" }
        (handleClaim (fixture.ext none) { Method := "POST", address := "A" }
          (fixture.srv (fixture.build none none none none) fixture.cfgPlain true [])).2).1.status
      = 200 ∧
    (handleClaim (fixture.ext none) { Method := "POST", address := "C" }
        (handleClaim (fixture.ext none) { Method := "POST", address := "B" }
          (handleClaim (fixture.ext none) { Method := "POST", address := "A" }
            (fixture.srv (fixture.build none none none none) fixture.cfgPlain true
              [])).2).2).1.status
      = 503 ∧
    (handleClaim (fixture.ext none) { Method := "POST", address := "C" }
        (handleClaim (fixture.ext none) { Method := "POST", address := "B" }
          (handleClaim (fixture.ext none) { Method := "POST", address := "A" }
            (fixture.srv (fixture.build none none none none) fixture.cfgPlain true
              [])).2).2).2.queue.buf
      = ["A", "B"] ∧
    (handleClaim (fixture.ext none) { Method := "POST", address := "C" }
        (handleClaim (fixture.ext none) { Method := "POST", address := "B" }
          (handleClaim (fixture.ext none) { Method := "POST", address := "A" }
            (fixture.srv (fixture.build none none none none) fixture.cfgPlain true
              [])).2).2).2.world.ops
      = [] :=
  ⟨⟨(busy_claim_queues_or_rejects (fixture.ext none) { Method := "POST", address := "A" }
        (fixture.srv (fixture.build none none none none) fixture.cfgPlain true [])
        rfl (Or.inr rfl) rfl (by decide)).2.1,
    (busy_claim_queues_or_rejects (fixture.ext none) { Method := "POST", address := "A" }
        (fixture.srv (fixture.build none none none none) fixture.cfgPlain true [])
        rfl (Or.inr rfl) rfl (by decide)).2.2.2.1⟩,
   by decide, by decide, by decide, by decide, by decide⟩

/-- C3. With the lock free and the queue holding `a1, ..., an` (`n ≥ 1`), one run of
`consumeQueue` returns, having taken the lock, called `Transfer` once for each `ai` in
queue order whatever the builder answered, and released the lock; the queue ends empty.
With an empty queue it returns the server as it was: no builder call, no lock call. -/
theorem drain_dispatches_in_order (ext : Ext) (s : Server W) :
    (s.queue.buf ≠ [] → s.mutex.locked = false →
      ∃ s1 : Server W, consumeQueue ext s = some s1 ∧
        s1.since s
          = [Event.Lock] ++
              s.queue.buf.map
                (fun a => Event.Transfer a (ext.EtherToWei s.cfg.ethAmount) s.cfg.gasPrice) ++
              [Event.Unlock] ∧
        s1.world
          = s.queue.buf.foldl
              (fun w a =>
                (s.builder.Transfer a (ext.EtherToWei s.cfg.ethAmount) s.cfg.gasPrice w).2)
              s.world ∧
        s1.queue.buf = [] ∧
        s1.mutex.locked = false) ∧
    (s.queue.buf = [] → consumeQueue ext s = some s) := by
  constructor
  · intro hne hl
    obtain ⟨s1, h1, h2, h3, h4, h5, -⟩ := consumeQueue_run ext s hl hne
    refine ⟨s1, h1, ?_, h4, by rw [h2], by rw [h5]⟩
    apply Server.since_of_trace
    rw [h3]
    simp
  · intro he
    exact consumeQueue_empty ext s he

/-- C3, worked instance: queue `[A, B]` on a ledger whose nonce query always fails; both
addresses are still dispatched, in order, each with one (failed) nonce query. -/
theorem drain_dispatches_in_order_witness :
    ∃ s1 : Server (World Nat),
      consumeQueue (fixture.ext none)
          (fixture.srv (fixture.build (some "connection refused") none none none)
            fixture.cfgPlain false ["A", "B"]) = some s1 ∧
        s1.since (fixture.srv (fixture.build (some "connection refused") none none none)
            fixture.cfgPlain false ["A", "B"])
          = [Event.Lock, Event.Transfer "A" (1 * 10 ^ 18) 0,
             Event.Transfer "B" (1 * 10 ^ 18) 0, Event.Unlock] ∧
        s1.world = { st := 0, ops := [Op.PendingNonceAt 5, Op.PendingNonceAt 5] } ∧
        s1.queue.buf = [] ∧
        s1.mutex.locked = false :=
  (drain_dispatches_in_order (fixture.ext none)
      (fixture.srv (fixture.build (some "connection refused") none none none)
        fixture.cfgPlain false ["A", "B"])).1 (by decide) rfl

/-- C5. `handleClaim` returns with the lock free whenever it was entered with the lock
free, whatever the method and the address; entered with the lock held it leaves it held,
never calls `Unlock` and never calls the builder; with a non-empty queue it does not call
`TryLock`; on the synchronous dispatch path the queue is unchanged and the lock is taken
and released around a single builder call. -/
theorem handleClaim_lock_discipline (ext : Ext) (r : Request) (s : Server W) :
    (s.mutex.locked = false → (handleClaim ext r s).2.mutex.locked = false) ∧
    (s.mutex.locked = true →
      (handleClaim ext r s).2.mutex.locked = true ∧
      Event.Unlock ∉ (handleClaim ext r s).2.since s ∧
      ∀ e ∈ (handleClaim ext r s).2.since s, e.isBuilderCall = false) ∧
    (s.queue.len ≠ 0 → ∀ ok, Event.TryLock ok ∉ (handleClaim ext r s).2.since s) ∧
    (r.Method = "POST" → s.queue.len = 0 → s.mutex.locked = false →
      (handleClaim ext r s).2.queue = s.queue ∧
      ∃ c, c.isBuilderCall = true ∧
        (handleClaim ext r s).2.since s = [Event.TryLock true, c, Event.Unlock]) := by
  have hsame : ∀ x : Response, handleClaim ext r s = (x, s) →
      (handleClaim ext r s).2.mutex = s.mutex ∧ (handleClaim ext r s).2.since s = [] := by
    intro x hx
    rw [hx]
    simp [Server.since]
  have hdisp : r.Method = "POST" → s.queue.len = 0 → s.mutex.locked = false →
      (handleClaim ext r s).2.mutex = { locked := false } ∧
      (handleClaim ext r s).2.queue = s.queue ∧
      ∃ c, c.isBuilderCall = true ∧
        (handleClaim ext r s).2.since s = [Event.TryLock true, c, Event.Unlock] := by
    intro hP hq hl
    by_cases hc : s.cfg.contractAddress = ""
    · obtain ⟨-, -, h3, h4, -, h6⟩ := handleClaim_plain ext r s hP hq hl hc
      exact ⟨h3, h4, Event.Transfer _ _ _, rfl, Server.since_of_trace _ _ _ h6⟩
    · obtain ⟨-, -, h3, h4, -, h6⟩ := handleClaim_contract ext r s hP hq hl hc
      exact ⟨h3, h4, Event.MultiTransfer _ _ _, rfl, Server.since_of_trace _ _ _ h6⟩
  have hbusy : r.Method = "POST" → (s.queue.len ≠ 0 ∨ s.mutex.locked = true) →
      (handleClaim ext r s).2.mutex = s.mutex ∧
      ((handleClaim ext r s).2.since s = [] ∨
        (s.queue.len = 0 ∧ (handleClaim ext r s).2.since s = [Event.TryLock false])) := by
    intro hP hb
    by_cases hq : s.queue.len = 0
    · have hl : s.mutex.locked = true := by
        rcases hb with h | h
        · exact absurd hq h
        · exact h
      obtain ⟨-, h2, h3, -⟩ := handleClaim_locked ext r s hP hq hl
      exact ⟨h2, Or.inr ⟨hq, Server.since_of_trace _ _ _ h3⟩⟩
    · obtain ⟨-, h2, h3, -⟩ := handleClaim_queued ext r s hP hq
      exact ⟨h2, Or.inl (Server.since_of_trace _ _ [] (by simp [h3]))⟩
  by_cases hO : r.Method = "OPTIONS"
  · obtain ⟨m, t⟩ := hsame _ (handleClaim_options ext r s hO)
    have hnP : r.Method ≠ "POST" := by rw [hO]; decide
    refine ⟨?_, ?_, ?_, ?_⟩
    · intro hl; rw [m]; exact hl
    · intro hl; rw [m, t]; exact ⟨hl, by simp, by simp⟩
    · intro _ ok; rw [t]; simp
    · intro hP; exact absurd hP hnP
  · by_cases hP : r.Method = "POST"
    · refine ⟨?_, ?_, ?_, ?_⟩
      · intro hl
        by_cases hq : s.queue.len = 0
        · rw [(hdisp hP hq hl).1]
        · rw [(hbusy hP (Or.inl hq)).1]; exact hl
      · intro hl
        obtain ⟨m, t⟩ := hbusy hP (Or.inr hl)
        rw [m]
        rcases t with t | ⟨-, t⟩ <;> rw [t] <;> exact ⟨hl, by simp, by simp [Event.isBuilderCall]⟩
      · intro hq ok
        obtain ⟨-, t⟩ := hbusy hP (Or.inl hq)
        rcases t with t | ⟨h0, -⟩
        · rw [t]; simp
        · exact absurd h0 hq
      · intro _ hq hl
        exact (hdisp hP hq hl).2
    · obtain ⟨m, t⟩ := hsame _ (handleClaim_other ext r s hO hP)
      refine ⟨?_, ?_, ?_, ?_⟩
      · intro hl; rw [m]; exact hl
      · intro hl; rw [m, t]; exact ⟨hl, by simp, by simp⟩
      · intro _ ok; rw [t]; simp
      · intro hP'; exact absurd hP' hP

/-- C5, worked instances: a failed synchronous dispatch leaves the lock free and the
queue unchanged; a claim entered with the lock held leaves it held. -/
theorem handleClaim_lock_discipline_witness :
    (handleClaim (fixture.ext none) { Method := "POST", address := "0xA" }
        (fixture.srv (fixture.build (some "connection refused") none none none)
          fixture.cfgPlain false [])).2.mutex.locked = false ∧
    ((handleClaim (fixture.ext none) { Method := "POST", address := "0xA" }
        (fixture.srv (fixture.build (some "connection refused") none none none)
          fixture.cfgPlain false [])).2.queue
      = { buf := [], cap := 2 } ∧
     ∃ c, c.isBuilderCall = true ∧
      (handleClaim (fixture.ext none) { Method := "POST", address := "0xA" }
          (fixture.srv (fixture.build (some "connection refused") none none none)
            fixture.cfgPlain false [])).2.since
          (fixture.srv (fixture.build (some "connection refused") none none none)
            fixture.cfgPlain false [])
        = [Event.TryLock true, c, Event.Unlock]) ∧
    (handleClaim (fixture.ext none) { Method := "POST", address := "0xA" }
        (fixture.srv (fixture.build none none none none)
          fixture.cfgPlain true [])).2.mutex.locked = true :=
  ⟨(handleClaim_lock_discipline (fixture.ext none) { Method := "POST", address := "0xA" }
      (fixture.srv (fixture.build (some "connection refused") none none none)
        fixture.cfgPlain false [])).1 rfl,
   (handleClaim_lock_discipline (fixture.ext none) { Method := "POST", address := "0xA" }
      (fixture.srv (fixture.build (some "connection refused") none none none)
        fixture.cfgPlain false [])).2.2.2 rfl rfl rfl,
   ((handleClaim_lock_discipline (fixture.ext none) { Method := "POST", address := "0xA" }
      (fixture.srv (fixture.build none none none none)
        fixture.cfgPlain true [])).2.1 rfl).1⟩

/-- C6. On the synchronous dispatch path (POST, queue empty, lock free), with the builder
of `transaction.go`: without a contract address the handler makes one `Transfer` call to
the destination with the configured ether amount, and no `MultiTransfer` call; with a
contract address, when parsing the interface and packing the arguments return no error,
it makes one `MultiTransfer` call and no `Transfer` call, and the transaction built has
the contract address as recipient, value zero, and as call data the encoding of
`multiTransfer(destination, ethAmount, usdtAmount, usdcAmount)`. -/
theorem path_selection (ext : Ext) (b : TxBuild σ) (r : Request) (s : Server (World σ))
    (hb : s.builder = ofTxBuild b) (hP : r.Method = "POST") (hq : s.queue.len = 0)
    (hl : s.mutex.locked = false) :
    (s.cfg.contractAddress = "" →
      (handleClaim ext r s).2.since s
        = [Event.TryLock true,
           Event.Transfer r.address (ext.EtherToWei s.cfg.ethAmount) s.cfg.gasPrice,
           Event.Unlock] ∧
      (∀ t ∈ signedPayloads ((handleClaim ext r s).2.world.since s.world),
        t.To = b.HexToAddress r.address ∧ t.Value = ext.EtherToWei s.cfg.ethAmount ∧
        t.Data = []) ∧
      (∀ (n : Nat) (st1 : σ) (p : Int) (st2 : σ) (gops : List Op),
        b.client.PendingNonceAt b.fromAddress s.world.st = ((n, none), st1) →
        GasResolved b s.cfg.gasPrice st1 p st2 gops →
          signedPayloads ((handleClaim ext r s).2.world.since s.world)
            = [{ Nonce := n, To := b.HexToAddress r.address,
                 Value := ext.EtherToWei s.cfg.ethAmount, Data := [], Gas := 50000,
                 GasPrice := p }])) ∧
    (s.cfg.contractAddress ≠ "" →
      ∀ (contract : ext.AbiT) (data : List Nat),
        ext.JSON ABI = (contract, none) →
        ext.Pack contract "multiTransfer" (ext.HexToAddress r.address)
          s.cfg.ethAmount s.cfg.usdtAmount s.cfg.usdcAmount = (data, none) →
        (handleClaim ext r s).2.since s
          = [Event.TryLock true,
             Event.MultiTransfer s.cfg.contractAddress data s.cfg.gasPrice,
             Event.Unlock] ∧
        (∀ t ∈ signedPayloads ((handleClaim ext r s).2.world.since s.world),
          t.To = b.HexToAddress s.cfg.contractAddress ∧ t.Value = 0 ∧ t.Data = data) ∧
        (∀ (n : Nat) (st1 : σ) (p : Int) (st2 : σ) (gops : List Op),
          b.client.PendingNonceAt b.fromAddress s.world.st = ((n, none), st1) →
          GasResolved b s.cfg.gasPrice st1 p st2 gops →
            signedPayloads ((handleClaim ext r s).2.world.since s.world)
              = [{ Nonce := n, To := b.HexToAddress s.cfg.contractAddress, Value := 0,
                   Data := data, Gas := 500000, GasPrice := p }])) := by
  constructor
  · intro hc
    obtain ⟨-, h2, -, -, -, h6⟩ := handleClaim_plain ext r s hP hq hl hc
    have hw : (handleClaim ext r s).2.world
        = (b.Transfer r.address (ext.EtherToWei s.cfg.ethAmount) s.cfg.gasPrice s.world).2 := by
      rw [h2, hb]
      rfl
    refine ⟨Server.since_of_trace _ _ _ h6, ?_, ?_⟩
    · rw [hw]
      intro t ht
      obtain ⟨a1, a2, a3, -⟩ := Transfer_every_payload b _ _ _ _ t ht
      exact ⟨a1, a2, a3⟩
    · intro n st1 p st2 gops hn hg
      rw [hw]
      exact Transfer_payloads b _ _ _ _ n st1 p st2 gops hn hg
  · intro hc contract data hj hk
    obtain ⟨-, h2, -, -, -, h6⟩ := handleClaim_contract ext r s hP hq hl hc
    have hd : (ext.Pack (ext.JSON ABI).1 "multiTransfer" (ext.HexToAddress r.address)
        s.cfg.ethAmount s.cfg.usdtAmount s.cfg.usdcAmount).1 = data := by
      rw [hj]
      simp only
      rw [hk]
    rw [hd] at h2 h6
    have hw : (handleClaim ext r s).2.world
        = (b.MultiTransfer s.cfg.contractAddress data s.cfg.gasPrice s.world).2 := by
      rw [h2, hb]
      rfl
    refine ⟨Server.since_of_trace _ _ _ h6, ?_, ?_⟩
    · rw [hw]
      intro t ht
      obtain ⟨a1, a2, a3, -⟩ := MultiTransfer_every_payload b _ _ _ _ t ht
      exact ⟨a1, a2, a3⟩
    · intro n st1 p st2 gops hn hg
      rw [hw]
      exact MultiTransfer_payloads b _ _ _ _ n st1 p st2 gops hn hg

/-- C6, worked instances: destination `0xA` without a contract address, then with the
contract address `0xC0`, the amounts 1, 2, 3 and an encoder that returns `[3, 1, 2, 3]`. -/
theorem path_selection_witness :
    ((handleClaim (fixture.ext none) { Method := "POST", address := "0xA" }
        (fixture.srv (fixture.build none none none none) fixture.cfgPlain false [])).2.since
        (fixture.srv (fixture.build none none none none) fixture.cfgPlain false [])
      = [Event.TryLock true, Event.Transfer "0xA" (1 * 10 ^ 18) 0, Event.Unlock] ∧
     signedPayloads
        ((handleClaim (fixture.ext none) { Method := "POST", address := "0xA" }
          (fixture.srv (fixture.build none none none none) fixture.cfgPlain false
            [])).2.world.since fixture.w0)
      = [{ Nonce := 0, To := 3, Value := 1 * 10 ^ 18, Data := [], Gas := 50000,
           GasPrice := 7 }]) ∧
    ((handleClaim (fixture.ext none) { Method := "POST", address := "0xA" }
        (fixture.srv (fixture.build none none none none) fixture.cfgContract false [])).2.since
        (fixture.srv (fixture.build none none none none) fixture.cfgContract false [])
      = [Event.TryLock true, Event.MultiTransfer "0xC0" [3, 1, 2, 3] 0, Event.Unlock] ∧
     signedPayloads
        ((handleClaim (fixture.ext none) { Method := "POST", address := "0xA" }
          (fixture.srv (fixture.build none none none none) fixture.cfgContract false
            [])).2.world.since fixture.w0)
      = [{ Nonce := 0, To := 4, Value := 0, Data := [3, 1, 2, 3], Gas := 500000,
           GasPrice := 7 }]) :=
  ⟨⟨((path_selection (fixture.ext none) (fixture.build none none none none)
        { Method := "POST", address := "0xA" }
        (fixture.srv (fixture.build none none none none) fixture.cfgPlain false [])
        rfl rfl rfl rfl).1 rfl).1,
    ((path_selection (fixture.ext none) (fixture.build none none none none)
        { Method := "POST", address := "0xA" }
        (fixture.srv (fixture.build none none none none) fixture.cfgPlain false [])
        rfl rfl rfl rfl).1 rfl).2.2 0 0 7 0 [Op.SuggestGasPrice] rfl
          (Or.inr ⟨rfl, rfl, rfl⟩)⟩,
   ⟨((path_selection (fixture.ext none) (fixture.build none none none none)
        { Method := "POST", address := "0xA" }
        (fixture.srv (fixture.build none none none none) fixture.cfgContract false [])
        rfl rfl rfl rfl).2 (by decide) () [3, 1, 2, 3] rfl rfl).1,
    ((path_selection (fixture.ext none) (fixture.build none none none none)
        { Method := "POST", address := "0xA" }
        (fixture.srv (fixture.build none none none none) fixture.cfgContract false [])
        rfl rfl rfl rfl).2 (by decide) () [3, 1, 2, 3] rfl rfl).2.2 0 0 7 0
          [Op.SuggestGasPrice] rfl (Or.inr ⟨rfl, rfl, rfl⟩)⟩⟩

/-- C1, at a failing input: contract address `0xC0` configured, queue empty, lock free,
and a ledger whose pending-nonce query fails.  `MultiTransfer` is called once and returns
the error, yet the handler answers 200 with a `TransactionHash:` message built from the
zero hash. -/
theorem contract_dispatch_error_answered_200 :
    ((fixture.build (some "connection refused") none none none).MultiTransfer "0xC0"
        [3, 1, 2, 3] 0 fixture.w0).1 = (0, some "connection refused") ∧
    (handleClaim (fixture.ext none) { Method := "POST", address := "0xA" }
        (fixture.srv (fixture.build (some "connection refused") none none none)
          fixture.cfgContract false [])).2.trace
      = [Event.TryLock true, Event.MultiTransfer "0xC0" [3, 1, 2, 3] 0, Event.Unlock] ∧
    (handleClaim (fixture.ext none) { Method := "POST", address := "0xA" }
        (fixture.srv (fixture.build (some "connection refused") none none none)
          fixture.cfgContract false [])).1
      = renderJSON corsHeader { Message := "TransactionHash:0x0" } 200 := by
  decide

/-- C4, at a failing input: contract address `0xC0` configured.  For the address `0xA`
the drain worker calls `Transfer` with the address itself as destination, while the
synchronous path of `handleClaim` calls `MultiTransfer` on the contract address. -/
theorem drain_uses_plain_transfer_with_contract :
    (∃ s1 : Server (World Nat),
      consumeQueue (fixture.ext none)
          (fixture.srv (fixture.build none none none none) fixture.cfgContract false ["0xA"])
        = some s1 ∧
      s1.trace = [Event.Lock, Event.Transfer "0xA" (1 * 10 ^ 18) 0, Event.Unlock] ∧
      signedPayloads s1.world.ops
        = [{ Nonce := 0, To := 3, Value := 1 * 10 ^ 18, Data := [], Gas := 50000,
             GasPrice := 7 }]) ∧
    (handleClaim (fixture.ext none) { Method := "POST", address := "0xA" }
        (fixture.srv (fixture.build none none none none) fixture.cfgContract false [])).2.trace
      = [Event.TryLock true, Event.MultiTransfer "0xC0" [3, 1, 2, 3] 0, Event.Unlock] ∧
    signedPayloads
        (handleClaim (fixture.ext none) { Method := "POST", address := "0xA" }
          (fixture.srv (fixture.build none none none none) fixture.cfgContract false
            [])).2.world.ops
      = [{ Nonce := 0, To := 4, Value := 0, Data := [3, 1, 2, 3], Gas := 500000,
           GasPrice := 7 }] := by
  refine ⟨?_, by decide, by decide⟩
  obtain ⟨s1, h1, -, h3, h4, -, -⟩ :=
    consumeQueue_run (fixture.ext none)
      (fixture.srv (fixture.build none none none none) fixture.cfgContract false ["0xA"])
      rfl (by decide)
  refine ⟨s1, h1, ?_, ?_⟩
  · rw [h3]; decide
  · rw [h4]; decide

/-- C8, at a failing input: contract address `0xC0` configured and an encoder whose `Pack`
returns an error.  The handler logs the error, still calls `MultiTransfer` with the empty
call data, and answers 200 with a transaction hash. -/
theorem encoding_failure_answered_200 :
    ((fixture.ext (some "abi: cannot pack")).Pack () "multiTransfer" 3 1 2 3).2
      = some "abi: cannot pack" ∧
    (handleClaim (fixture.ext (some "abi: cannot pack")) { Method := "POST", address := "0xA" }
        (fixture.srv (fixture.build none none none none) fixture.cfgContract false [])).2.trace
      = [Event.TryLock true, Event.MultiTransfer "0xC0" [] 0, Event.Unlock] ∧
    (handleClaim (fixture.ext (some "abi: cannot pack")) { Method := "POST", address := "0xA" }
        (fixture.srv (fixture.build none none none none) fixture.cfgContract false [])).2.logs
      = [{ level := "error", msg := "Failed to encode ABI",
           fields := [("error", "abi: cannot pack")] },
         { level := "info", msg := "Funded directly successfully",
           fields := [("txHash", "0x64"), ("address", "0xA")] }] ∧
    (handleClaim (fixture.ext (some "abi: cannot pack")) { Method := "POST", address := "0xA" }
        (fixture.srv (fixture.build none none none none) fixture.cfgContract false [])).1
      = renderJSON corsHeader { Message := "TransactionHash:0x64" } 200 := by
  decide

end server

end Faucet

/-! ## Interleaved runs -/

namespace Faucet

namespace server

open chain

variable {W : Type}

theorem logIfErr_mutex (t : Server W) (e : Option Err) (m : String) :
    (t.logIfErr e m).mutex = t.mutex := by
  cases e <;> rfl

theorem logIfErr_queue (t : Server W) (e : Option Err) (m : String) :
    (t.logIfErr e m).queue = t.queue := by
  cases e <;> rfl

theorem logIfErr_trace (t : Server W) (e : Option Err) (m : String) :
    (t.logIfErr e m).trace = t.trace := by
  cases e <;> rfl

theorem claimDispatch_effect (ext : Ext) (address : String) (s : Server W) :
    (claimDispatch ext address s).2.mutex = s.mutex ∧
    (claimDispatch ext address s).2.queue = s.queue ∧
    ∃ c, c.isBuilderCall = true ∧ (claimDispatch ext address s).2.trace = s.trace ++ [c] := by
  unfold claimDispatch
  by_cases hc : s.cfg.contractAddress.length = 0
  · rw [if_pos hc]
    exact ⟨rfl, rfl, Event.Transfer _ _ _, rfl, rfl⟩
  · rw [if_neg hc]
    refine ⟨?_, ?_, ?_⟩
    · simp only [Server.MultiTransfer, logIfErr_mutex]
    · simp only [Server.MultiTransfer, logIfErr_queue]
    · simp only [Server.MultiTransfer, logIfErr_trace]
      refine ⟨_, ?_, rfl⟩
      rfl

theorem holds_setH_self (x : Sys W) (i : Nat) (s : Server W) (pc : HPc) :
    (x.setH i s pc).holds (Proc.handler i) = pc.holds := by
  simp [Sys.setH, Sys.holds]

theorem holds_setH_other (x : Sys W) (i : Nat) (s : Server W) (pc : HPc) (v : Proc)
    (hv : v ≠ Proc.handler i) : (x.setH i s pc).holds v = x.holds v := by
  cases v with
  | handler j =>
    have hj : j ≠ i := fun h => hv (by rw [h])
    simp [Sys.setH, Sys.holds, Function.update, hj]
  | drain => rfl

theorem holds_setD_self (x : Sys W) (s : Server W) (pc : DPc) :
    (x.setD s pc).holds Proc.drain = pc.holds := rfl

theorem holds_setD_other (x : Sys W) (s : Server W) (pc : DPc) (v : Proc)
    (hv : v ≠ Proc.drain) : (x.setD s pc).holds v = x.holds v := by
  cases v with
  | handler j => rfl
  | drain => exact absurd rfl hv

/-- What one step does to the lock, to the record of calls and to who holds the lock. -/
theorem step_effect (ext : Ext) (x x1 : Sys W) (u : Proc) (h : step ext x u = some x1) :
    (∀ v, v ≠ u → x1.holds v = x.holds v) ∧
    ∃ l, x1.srv.trace = x.srv.trace ++ l ∧
      ((x.holds u = false ∧ x1.holds u = false ∧ x1.srv.mutex = x.srv.mutex ∧
          ∀ e ∈ l, e.isBuilderCall = false) ∨
       (x.holds u = false ∧ x1.holds u = true ∧ x.srv.mutex.locked = false ∧
          x1.srv.mutex.locked = true ∧ l = [u.acquire]) ∨
       (x.holds u = true ∧ x1.holds u = true ∧ x1.srv.mutex = x.srv.mutex ∧
          (x.dispatching u = true ∨ ∀ e ∈ l, e.isBuilderCall = false)) ∨
       (x.holds u = true ∧ x1.holds u = false ∧ x1.srv.mutex.locked = false ∧
          l = [Event.Unlock])) := by
  cases u with
  | handler i =>
    simp only [step, stepHandler] at h
    cases hp : x.hpc i with
    | start =>
      have hx : x.holds (Proc.handler i) = false := by simp [Sys.holds, hp, HPc.holds]
      simp only [hp] at h
      have key : ∃ pc, pc.holds = false ∧ x1 = x.setH i x.srv pc := by
        split at h
        · (cases h; refine ⟨_, ?_, rfl⟩; rfl)
        · split at h
          · (cases h; refine ⟨_, ?_, rfl⟩; rfl)
          · split at h
            · (cases h; refine ⟨_, ?_, rfl⟩; rfl)
            · (cases h; refine ⟨_, ?_, rfl⟩; rfl)
      obtain ⟨pc, hpc, rfl⟩ := key
      refine ⟨fun v hv => holds_setH_other x i _ pc v hv, [], by simp [Sys.setH], Or.inl ?_⟩
      exact ⟨hx, by rw [holds_setH_self, hpc], rfl, by simp⟩
    | tryLock =>
      have hx : x.holds (Proc.handler i) = false := by simp [Sys.holds, hp, HPc.holds]
      simp only [hp, Option.some.injEq] at h
      subst h
      refine ⟨fun v hv => holds_setH_other x i _ _ v hv, ?_⟩
      cases hl : x.srv.mutex.locked with
      | true =>
        refine ⟨[Event.TryLock false], by simp [Sys.setH, Server.TryLock, Mutex.TryLock, hl],
          Or.inl ⟨hx, ?_, ?_, by simp [Event.isBuilderCall]⟩⟩
        · rw [holds_setH_self]; simp [Server.TryLock, Mutex.TryLock, hl, HPc.holds]
        · simp [Sys.setH, Server.TryLock, Mutex.TryLock, hl]
      | false =>
        refine ⟨[Event.TryLock true], by simp [Sys.setH, Server.TryLock, Mutex.TryLock, hl],
          Or.inr (Or.inl ⟨hx, ?_, rfl, ?_, rfl⟩)⟩
        · rw [holds_setH_self]; simp [Server.TryLock, Mutex.TryLock, hl, HPc.holds]
        · simp [Sys.setH, Server.TryLock, Mutex.TryLock, hl]
    | send =>
      have hx : x.holds (Proc.handler i) = false := by simp [Sys.holds, hp, HPc.holds]
      simp only [hp] at h
      have key : ∃ s pc, pc.holds = false ∧ s.mutex = x.srv.mutex ∧ s.trace = x.srv.trace ∧
          x1 = x.setH i s pc := by
        split at h
        · (cases h; refine ⟨_, _, ?_, ?_, ?_, rfl⟩ <;> rfl)
        · (cases h; refine ⟨_, _, ?_, ?_, ?_, rfl⟩ <;> rfl)
      obtain ⟨s, pc, hpc, hm, ht, rfl⟩ := key
      refine ⟨fun v hv => holds_setH_other x i _ pc v hv, [], by simp [Sys.setH, ht],
        Or.inl ⟨hx, by rw [holds_setH_self, hpc], hm, by simp⟩⟩
    | dispatch =>
      have hx : x.holds (Proc.handler i) = true := by simp [Sys.holds, hp, HPc.holds]
      have hd : x.dispatching (Proc.handler i) = true := by simp [Sys.dispatching, hp]
      simp only [hp, Option.some.injEq] at h
      subst h
      obtain ⟨e1, -, c, -, e3⟩ := claimDispatch_effect ext (x.req i).address x.srv
      refine ⟨fun v hv => holds_setH_other x i _ _ v hv, [c], e3,
        Or.inr (Or.inr (Or.inl ⟨hx, ?_, e1, Or.inl hd⟩))⟩
      rw [holds_setH_self]; rfl
    | unlock out =>
      have hx : x.holds (Proc.handler i) = true := by simp [Sys.holds, hp, HPc.holds]
      simp only [hp] at h
      have key : ∃ s pc, pc.holds = false ∧ s.mutex.locked = false ∧
          s.trace = x.srv.trace ++ [Event.Unlock] ∧ x1 = x.setH i s pc := by
        split at h
        · (cases h; refine ⟨_, _, ?_, ?_, ?_, rfl⟩ <;> rfl)
        · (cases h; refine ⟨_, _, ?_, ?_, ?_, rfl⟩ <;> rfl)
      obtain ⟨s, pc, hpc, hm, ht, rfl⟩ := key
      refine ⟨fun v hv => holds_setH_other x i _ pc v hv, [Event.Unlock], ht,
        Or.inr (Or.inr (Or.inr ⟨hx, by rw [holds_setH_self, hpc], hm, rfl⟩))⟩
    | done resp =>
      simp [hp] at h
  | drain =>
    simp only [step, stepDrain] at h
    cases hp : x.dpc with
    | idle =>
      have hx : x.holds Proc.drain = false := by simp [Sys.holds, hp, DPc.holds]
      simp only [hp] at h
      have key : ∃ pc, pc.holds = false ∧ x1 = x.setD x.srv pc := by
        split at h
        · (cases h; refine ⟨_, ?_, rfl⟩; rfl)
        · (cases h; refine ⟨_, ?_, rfl⟩; rfl)
      obtain ⟨pc, hpc, rfl⟩ := key
      refine ⟨fun v hv => holds_setD_other x _ pc v hv, [], by simp [Sys.setD], Or.inl ?_⟩
      exact ⟨hx, by rw [holds_setD_self, hpc], rfl, by simp⟩
    | lock =>
      have hx : x.holds Proc.drain = false := by simp [Sys.holds, hp, DPc.holds]
      simp only [hp] at h
      cases hl : x.srv.mutex.locked with
      | true => simp [Server.Lock, Mutex.Lock, hl] at h
      | false =>
        simp only [Server.Lock, Mutex.Lock, hl, Bool.false_eq_true, if_false,
          Option.some.injEq] at h
        subst h
        exact ⟨fun v hv => holds_setD_other x _ _ v hv, [Event.Lock], rfl,
          Or.inr (Or.inl ⟨hx, rfl, rfl, rfl, rfl⟩)⟩
    | loop =>
      have hx : x.holds Proc.drain = true := by simp [Sys.holds, hp, DPc.holds]
      simp only [hp] at h
      have key : ∃ pc, pc.holds = true ∧ x1 = x.setD x.srv pc := by
        split at h
        · (cases h; refine ⟨_, ?_, rfl⟩; rfl)
        · (cases h; refine ⟨_, ?_, rfl⟩; rfl)
      obtain ⟨pc, hpc, rfl⟩ := key
      refine ⟨fun v hv => holds_setD_other x _ pc v hv, [], by simp [Sys.setD],
        Or.inr (Or.inr (Or.inl ⟨hx, by rw [holds_setD_self, hpc], rfl, Or.inr (by simp)⟩))⟩
    | recv =>
      have hx : x.holds Proc.drain = true := by simp [Sys.holds, hp, DPc.holds]
      simp only [hp] at h
      cases hr : x.srv.queue.recv with
      | none => simp [hr] at h
      | some aq =>
        obtain ⟨a, q⟩ := aq
        simp only [hr, Option.some.injEq] at h
        subst h
        exact ⟨fun v hv => holds_setD_other x _ _ v hv, [], by simp [Sys.setD],
          Or.inr (Or.inr (Or.inl ⟨hx, rfl, rfl, Or.inr (by simp)⟩))⟩
    | call address =>
      have hx : x.holds Proc.drain = true := by simp [Sys.holds, hp, DPc.holds]
      have hd : x.dispatching Proc.drain = true := by simp [Sys.dispatching, hp]
      simp only [hp] at h
      have key : ∃ s, s.mutex = x.srv.mutex ∧
          s.trace = x.srv.trace ++
            [Event.Transfer address (ext.EtherToWei x.srv.cfg.ethAmount) x.srv.cfg.gasPrice] ∧
          x1 = x.setD s DPc.loop := by
        split at h
        · (cases h; refine ⟨_, ?_, ?_, rfl⟩ <;> rfl)
        · (cases h; refine ⟨_, ?_, ?_, rfl⟩ <;> rfl)
      obtain ⟨s, hm, ht, rfl⟩ := key
      exact ⟨fun v hv => holds_setD_other x _ _ v hv, _, ht,
        Or.inr (Or.inr (Or.inl ⟨hx, rfl, hm, Or.inl hd⟩))⟩
    | unlock =>
      have hx : x.holds Proc.drain = true := by simp [Sys.holds, hp, DPc.holds]
      simp only [hp, Option.some.injEq] at h
      subst h
      exact ⟨fun v hv => holds_setD_other x _ _ v hv, [Event.Unlock], rfl,
        Or.inr (Or.inr (Or.inr ⟨hx, rfl, rfl, rfl⟩))⟩

theorem step_exclusive (ext : Ext) (x x1 : Sys W) (u : Proc) (h : step ext x u = some x1)
    (hx : x.Exclusive) : x1.Exclusive := by
  obtain ⟨frame, l, -, eff⟩ := step_effect ext x x1 u h
  obtain ⟨inv1, inv2⟩ := hx
  have old : ∀ v, v ≠ u → x1.holds v = true → x.holds v = true := by
    intro v hv hh
    rw [← frame v hv]
    exact hh
  rcases eff with ⟨a, b, m, -⟩ | ⟨a, b, m0, m1, -⟩ | ⟨a, b, m, -⟩ | ⟨a, b, m1, -⟩
  · have nou : ∀ v, x1.holds v = true → v ≠ u := by
      intro v hh hvu
      rw [hvu, b] at hh
      exact Bool.false_ne_true hh
    constructor
    · intro v hh
      rw [m]
      exact inv1 v (old v (nou v hh) hh)
    · intro v w hv hw
      exact inv2 v w (old v (nou v hv) hv) (old w (nou w hw) hw)
  · have onlyu : ∀ v, x1.holds v = true → v = u := by
      intro v hh
      by_contra hvu
      have := inv1 v (old v hvu hh)
      rw [m0] at this
      exact Bool.false_ne_true this
    constructor
    · intro v _
      exact m1
    · intro v w hv hw
      rw [onlyu v hv, onlyu w hw]
  · have back : ∀ v, x1.holds v = true → x.holds v = true := by
      intro v hh
      by_cases hvu : v = u
      · rw [hvu]; exact a
      · exact old v hvu hh
    constructor
    · intro v hh
      rw [m]
      exact inv1 v (back v hh)
    · intro v w hv hw
      exact inv2 v w (back v hv) (back w hw)
  · have none_ : ∀ v, x1.holds v = true → False := by
      intro v hh
      by_cases hvu : v = u
      · rw [hvu, b] at hh
        exact Bool.false_ne_true hh
      · exact hvu (inv2 v u (old v hvu hh) a)
    constructor
    · intro v hh
      exact absurd hh (fun h' => none_ v h')
    · intro v w hv _
      exact absurd hv (fun h' => none_ v h')

theorem exec_exclusive (ext : Ext) (sched : List Proc) :
    ∀ x : Sys W, x.Exclusive → (exec ext sched x).Exclusive := by
  induction sched with
  | nil => intro x hx; exact hx
  | cons u rest ih =>
    intro x hx
    have hstep : ((step ext x u).getD x).Exclusive := by
      cases hs : step ext x u with
      | none => exact hx
      | some x1 => exact step_exclusive ext x x1 u hs hx
    exact ih _ hstep

theorem init_exclusive (s : Server W) (req : Nat → Request) : (Sys.init s req).Exclusive := by
  constructor
  · intro u hu
    cases u <;> simp [Sys.init, Sys.holds, HPc.holds, DPc.holds] at hu
  · intro u _ hu
    cases u <;> simp [Sys.init, Sys.holds, HPc.holds, DPc.holds] at hu

theorem dispatching_holds (x : Sys W) (u : Proc) (h : x.dispatching u = true) :
    x.holds u = true := by
  cases u with
  | handler i =>
    simp only [Sys.dispatching] at h
    simp only [Sys.holds]
    cases hp : x.hpc i <;> simp_all [HPc.holds]
  | drain =>
    simp only [Sys.dispatching] at h
    simp only [Sys.holds]
    cases hp : x.dpc <;> simp_all [DPc.holds]

/-- C10. Single-flight.  In every state reached from start-up by any interleaving of any
number of `handleClaim` runs and the drain worker: at most one unit has a builder call
outstanding; such a unit holds the lock; at most one unit holds the lock, and then the
lock is held; a step that calls `Transfer` or `MultiTransfer` is a step of the unit
holding the lock; and a unit becomes the holder only by a successful `TryLock` (handler)
or by `Lock` (drain worker), taken while the lock was free. -/
theorem single_flight (ext : Ext) (s0 : Server W) (req : Nat → Request) (sched : List Proc)
    (x : Sys W) (hx : x = exec ext sched (Sys.init s0 req)) :
    (∀ u v, x.dispatching u = true → x.dispatching v = true → u = v) ∧
    (∀ u, x.dispatching u = true → x.holds u = true ∧ x.srv.mutex.locked = true) ∧
    (∀ u v, x.holds u = true → x.holds v = true → u = v) ∧
    (∀ u, x.holds u = true → x.srv.mutex.locked = true) ∧
    (∀ u x1, step ext x u = some x1 →
      (∃ e ∈ x1.srv.since x.srv, e.isBuilderCall = true) →
        x.holds u = true ∧ x.srv.mutex.locked = true ∧
        ∀ v, v ≠ u → x.holds v = false) ∧
    (∀ u x1, step ext x u = some x1 → x.holds u = false → x1.holds u = true →
      x.srv.mutex.locked = false ∧ x1.srv.since x.srv = [u.acquire]) := by
  have hex : x.Exclusive := by
    rw [hx]
    exact exec_exclusive ext sched _ (init_exclusive s0 req)
  obtain ⟨inv1, inv2⟩ := hex
  refine ⟨?_, ?_, inv2, inv1, ?_, ?_⟩
  · intro u v hu hv
    exact inv2 u v (dispatching_holds x u hu) (dispatching_holds x v hv)
  · intro u hu
    exact ⟨dispatching_holds x u hu, inv1 u (dispatching_holds x u hu)⟩
  · intro u x1 hs ⟨e, he, hb⟩
    obtain ⟨-, l, ht, eff⟩ := step_effect ext x x1 u hs
    rw [Server.since_of_trace _ _ l ht] at he
    have hu : x.holds u = true := by
      rcases eff with ⟨-, -, -, nb⟩ | ⟨-, -, -, -, hl⟩ | ⟨a, -, -, d | nb⟩ | ⟨a, -, -, hl⟩
      · rw [nb e he] at hb
        exact absurd hb Bool.false_ne_true
      · rw [hl] at he
        cases u <;> simp [Proc.acquire] at he <;> subst he <;>
          simp [Event.isBuilderCall] at hb
      · exact a
      · rw [nb e he] at hb
        exact absurd hb Bool.false_ne_true
      · exact a
    refine ⟨hu, inv1 u hu, ?_⟩
    intro v hv
    cases hh : x.holds v with
    | false => rfl
    | true => exact absurd (inv2 v u hh hu) hv
  · intro u x1 hs h0 h1
    obtain ⟨-, l, ht, eff⟩ := step_effect ext x x1 u hs
    rw [Server.since_of_trace _ _ l ht]
    rcases eff with ⟨-, b, -, -⟩ | ⟨-, -, m0, -, hl⟩ | ⟨a, -, -, -⟩ | ⟨a, -, -, -⟩
    · rw [b] at h1
      exact absurd h1 Bool.false_ne_true
    · exact ⟨m0, hl⟩
    · rw [a] at h0
      exact absurd h0.symm Bool.false_ne_true
    · rw [a] at h0
      exact absurd h0.symm Bool.false_ne_true

theorem exec_cons (ext : Ext) (u : Proc) (rest : List Proc) (x : Sys W) :
    exec ext (u :: rest) x = exec ext rest ((step ext x u).getD x) := rfl

theorem exec_nil (ext : Ext) (x : Sys W) : exec ext [] x = x := rfl

theorem exec_append (ext : Ext) (p q : List Proc) (x : Sys W) :
    exec ext (p ++ q) x = exec ext q (exec ext p x) := by
  simp [exec, List.foldl_append]

theorem handleClaim_dispatch (ext : Ext) (r : Request) (s : Server W) (hP : r.Method = "POST")
    (hq : s.queue.len = 0) (hl : s.mutex.locked = false) :
    handleClaim ext r s
      = (match (claimDispatch ext r.address s.TryLock.2).1.2 with
         | some e =>
           (renderJSON corsHeader { Message := e } 500,
            (claimDispatch ext r.address s.TryLock.2).2.Unlock.log "error"
              "Failed to send transaction" [("error", e)])
         | none =>
           (renderJSON corsHeader
              { Message := "TransactionHash:" ++
                  ext.HashString (claimDispatch ext r.address s.TryLock.2).1.1 } 200,
            (claimDispatch ext r.address s.TryLock.2).2.Unlock.log "info"
              "Funded directly successfully"
              [("txHash", ext.HashString (claimDispatch ext r.address s.TryLock.2).1.1),
               ("address", r.address)])) := by
  have hne : ("POST" : String) ≠ "OPTIONS" := by decide
  have ht : s.TryLock.1 = true := by simp [Server.TryLock, Mutex.TryLock, hl]
  unfold handleClaim claimDispatch
  simp only [hP, hne, hq, ht, if_false, ne_eq, not_true_eq_false, Bool.not_true,
    Bool.false_eq_true, not_false_eq_true]

/-- A handler run that is not interrupted does what `handleClaim` does: four steps of
handler `i` from `start` leave the server as `handleClaim` leaves it, with the response
`handleClaim` writes. -/
theorem handler_alone (ext : Ext) (x : Sys W) (i : Nat) (h0 : x.hpc i = HPc.start) :
    (exec ext [Proc.handler i, Proc.handler i, Proc.handler i, Proc.handler i] x).srv
      = (handleClaim ext (x.req i) x.srv).2 ∧
    (exec ext [Proc.handler i, Proc.handler i, Proc.handler i, Proc.handler i] x).hpc i
      = HPc.done (handleClaim ext (x.req i) x.srv).1 := by
  have hne : ("POST" : String) ≠ "OPTIONS" := by decide
  by_cases hO : (x.req i).Method = "OPTIONS"
  · simp [exec, step, stepHandler, h0, hO, Sys.setH, handleClaim]
  · by_cases hP : (x.req i).Method = "POST"
    · by_cases hq : x.srv.queue.len = 0
      · cases hl : x.srv.mutex.locked with
        | true =>
          cases hs : x.srv.queue.trySend (x.req i).address with
          | none =>
            simp [exec, step, stepHandler, h0, hP, hne, hq, hl, hs, Sys.setH, handleClaim,
              Server.TryLock, Mutex.TryLock, Server.log]
          | some q =>
            simp [exec, step, stepHandler, h0, hP, hne, hq, hl, hs, Sys.setH, handleClaim,
              Server.TryLock, Mutex.TryLock, Server.log]
        | false =>
          have ht : x.srv.TryLock.1 = true := by simp [Server.TryLock, Mutex.TryLock, hl]
          rw [handleClaim_dispatch ext (x.req i) x.srv hP hq hl]
          cases he : (claimDispatch ext (x.req i).address x.srv.TryLock.2).1.2 with
          | none =>
            simp [exec, step, stepHandler, h0, hP, hne, hq, ht, he, Sys.setH]
          | some e =>
            simp [exec, step, stepHandler, h0, hP, hne, hq, ht, he, Sys.setH]
      · cases hs : x.srv.queue.trySend (x.req i).address with
        | none =>
          simp [exec, step, stepHandler, h0, hP, hne, hq, hs, Sys.setH, handleClaim,
            Server.log]
        | some q =>
          simp [exec, step, stepHandler, h0, hP, hne, hq, hs, Sys.setH, handleClaim,
            Server.log]
    · simp [exec, step, stepHandler, h0, hO, hP, Sys.setH, handleClaim]

theorem drain_round (ext : Ext) (x : Sys W) (a : String) (rest : List String)
    (hd : x.dpc = DPc.loop) (hb : x.srv.queue.buf = a :: rest) :
    exec ext [Proc.drain, Proc.drain, Proc.drain] x
      = x.setD (consumeBody ext x.srv) DPc.loop := by
  have hlen : x.srv.queue.len ≠ 0 := by simp [Chan.len, hb]
  have hr : x.srv.queue.recv = some (a, { x.srv.queue with buf := rest }) := by
    simp [Chan.recv, hb]
  cases he : (x.srv.builder.Transfer a (ext.EtherToWei x.srv.cfg.ethAmount)
      x.srv.cfg.gasPrice x.srv.world).1.2 with
  | none =>
    simp [exec, step, stepDrain, hd, hlen, hr, Sys.setD, consumeBody, Server.Transfer, he]
  | some e =>
    simp [exec, step, stepDrain, hd, hlen, hr, Sys.setD, consumeBody, Server.Transfer, he]

theorem drain_loop (ext : Ext) (buf : List String) :
    ∀ x : Sys W, x.dpc = DPc.loop → x.srv.queue.buf = buf →
      exec ext (List.replicate (3 * buf.length + 1) Proc.drain) x
        = x.setD (consumeLoop ext x.srv) DPc.unlock := by
  induction buf with
  | nil =>
    intro x hd hb
    have hlen : x.srv.queue.len = 0 := by simp [Chan.len, hb]
    have hL : consumeLoop ext x.srv = x.srv := by
      rw [consumeLoop]
      simp [hlen]
    rw [hL]
    simp [exec, step, stepDrain, hd, hlen]
  | cons a rest ih =>
    intro x hd hb
    have hlen : x.srv.queue.len ≠ 0 := by simp [Chan.len, hb]
    have hL : consumeLoop ext x.srv = consumeLoop ext (consumeBody ext x.srv) := by
      rw [consumeLoop]
      simp [hlen]
    have hrep : List.replicate (3 * (a :: rest).length + 1) Proc.drain
        = [Proc.drain, Proc.drain, Proc.drain] ++
            List.replicate (3 * rest.length + 1) Proc.drain := by
      have : 3 * (a :: rest).length + 1 = 3 + (3 * rest.length + 1) := by
        simp only [List.length_cons]
        omega
      rw [this, List.replicate_add]
      rfl
    rw [hrep, exec_append, drain_round ext x a rest hd hb]
    have hq : (consumeBody ext x.srv).queue.buf = rest := by
      rw [(consumeBody_cons ext x.srv a rest hb).1]
    rw [ih (x.setD (consumeBody ext x.srv) DPc.loop) rfl hq, hL]
    rfl

/-- A run of the drain worker that is not interrupted does what `consumeQueue` does: from
`idle`, with the lock free and `n` addresses queued, `3 * n + 4` steps of the drain
worker leave the server as `consumeQueue` leaves it, and the worker idle again. -/
theorem drain_alone (ext : Ext) (x : Sys W) (hd : x.dpc = DPc.idle)
    (hl : x.srv.mutex.locked = false) :
    some (exec ext (List.replicate (3 * x.srv.queue.len + 4) Proc.drain) x).srv
      = consumeQueue ext x.srv ∧
    (exec ext (List.replicate (3 * x.srv.queue.len + 4) Proc.drain) x).dpc = DPc.idle := by
  by_cases hq : x.srv.queue.len = 0
  · have hx : x.setD x.srv DPc.idle = x := by
      cases x
      simp only [Sys.setD] at hd ⊢
      rw [hd]
    have h1 : step ext x Proc.drain = some x := by
      simp [step, stepDrain, hd, hq, hx]
    rw [hq]
    simp [exec, List.replicate, h1, consumeQueue, hq, hd]
  · have hrep : List.replicate (3 * x.srv.queue.len + 4) Proc.drain
        = [Proc.drain, Proc.drain] ++
            (List.replicate (3 * x.srv.queue.buf.length + 1) Proc.drain ++ [Proc.drain]) := by
      have : 3 * x.srv.queue.len + 4 = 2 + ((3 * x.srv.queue.buf.length + 1) + 1) := by
        simp only [Chan.len]
        omega
      rw [this, List.replicate_add, List.replicate_add]
      rfl
    have h2 : exec ext [Proc.drain, Proc.drain] x
        = x.setD { x.srv with mutex := { locked := true },
                              trace := x.srv.trace ++ [Event.Lock] } DPc.loop := by
      simp [exec, step, stepDrain, hd, hq, Sys.setD, Server.Lock, Mutex.Lock, hl]
    have h3 := drain_loop ext x.srv.queue.buf
      (x.setD { x.srv with mutex := { locked := true },
                           trace := x.srv.trace ++ [Event.Lock] } DPc.loop) rfl rfl
    rw [hrep, exec_append, exec_append, h2, h3]
    simp [exec, step, stepDrain, Sys.setD, consumeQueue, hq, Server.Lock, Mutex.Lock, hl]

/-- C10, worked instance: two handler runs race for the free lock.  The first to call
`TryLock` holds the lock with its builder call outstanding; the other has fallen through
to the enqueue path and holds nothing; the drain worker, once the address is queued,
waits at `Lock`. -/
theorem single_flight_witness :
    ((exec (fixture.ext none) fixture.race fixture.sys0).holds (Proc.handler 0) = true ∧
      (exec (fixture.ext none) fixture.race fixture.sys0).srv.mutex.locked = true) ∧
    (exec (fixture.ext none) fixture.race fixture.sys0).dispatching (Proc.handler 0) = true ∧
    (exec (fixture.ext none) fixture.race fixture.sys0).hpc 1 = HPc.send ∧
    (exec (fixture.ext none) fixture.race fixture.sys0).srv.trace
      = [Event.TryLock true, Event.TryLock false] ∧
    (step (fixture.ext none)
        (exec (fixture.ext none) (fixture.race ++ [Proc.handler 1, Proc.drain]) fixture.sys0)
        Proc.drain).isNone = true ∧
    (exec (fixture.ext none)
        (fixture.race ++ [Proc.handler 1, Proc.drain, Proc.handler 0, Proc.handler 0,
          Proc.drain, Proc.drain, Proc.drain, Proc.drain, Proc.drain, Proc.drain])
        fixture.sys0).srv.trace
      = [Event.TryLock true, Event.TryLock false,
         Event.MultiTransfer "0xC0" [3, 1, 2, 3] 0, Event.Unlock, Event.Lock,
         Event.Transfer "0xB" (1 * 10 ^ 18) 0, Event.Unlock] :=
  ⟨(single_flight (fixture.ext none)
      (fixture.srv (fixture.build none none none none) fixture.cfgContract false [])
      fixture.reqs fixture.race (exec (fixture.ext none) fixture.race fixture.sys0) rfl).2.1
      (Proc.handler 0) (by decide),
   by decide, by decide, by decide, by decide, by decide⟩

end server

end Faucet
